import Mathlib

/-!
# Heat-Index: the validation pipeline of `calc.cpp`

A shallow embedding of the request validators and of `calculate` of `src/calc.cpp`, and
theorems about them.

Conventions of the embedding:

* `double` is idealised as `ℚ`: arithmetic is exact, there is no rounding, no NaN and no
  infinity.  The one place where the range of `double` decides a branch (a decimal text too
  large for a `double` makes stream extraction fail) is kept as an explicit bound.
* `std::string` is `String`; the validators only look at whole values, at emptiness and at
  the first character of a unit of measure.
* A validator receives `response_t* r` and updates it in place; here it takes the response
  and returns the updated one.  The C++ validators are declared to return `response_t` but
  hold no `return` statement and `validate` discards their results, so the effect on `*r`
  is the whole of their behaviour.
* Reading `it->second` through the iterator `query_params.end()` has no defined behaviour.
  A function that does so returns `none` at that point.  Properties that do not depend on
  what that read yields are stated over `validate_reading`, where the string read is an
  unknown.
-/

namespace HeatIndex

/-! ## Character classes and number scanning -/

/-- The `isspace` class of the "C" locale: space, and the controls `\t \n \v \f \r`. -/
def isspace (c : Char) : Bool :=
  c.toNat == 32 || (9 ≤ c.toNat && c.toNat ≤ 13)

/-- The decimal digits `0`..`9`. -/
def isdigit (c : Char) : Bool :=
  48 ≤ c.toNat && c.toNat ≤ 57

/-- The `toupper` of the "C" locale: `a`..`z` go to `A`..`Z`, every other character is kept. -/
def toupper (c : Char) : Char :=
  if 97 ≤ c.toNat ∧ c.toNat ≤ 122 then Char.ofNat (c.toNat - 32) else c

/-- Leading white space is skipped, by the stream sentry and by `strtod` alike. -/
def skipws : List Char → List Char
  | [] => []
  | c :: cs => if isspace c then skipws cs else c :: cs

/-- Consume a run of decimal digits: the accumulated number, the count of digits consumed
and the unread remainder. -/
def digits (acc cnt : Nat) : List Char → Nat × Nat × List Char
  | [] => (acc, cnt, [])
  | c :: cs =>
    if isdigit c then digits (acc * 10 + (c.toNat - 48)) (cnt + 1) cs
    else (acc, cnt, c :: cs)

/-- What the floating-point scanner consumed from a text. -/
structure scanned where
  /-- a leading `-` was consumed -/
  neg : Bool
  /-- the mantissa digits, before and after the point, read as one decimal number -/
  mant : Nat
  /-- the number of mantissa digits -/
  ndigits : Nat
  /-- the number of mantissa digits after the decimal point -/
  nfrac : Nat
  /-- an `e` or `E` was consumed -/
  sci : Bool
  /-- the exponent carries a `-` -/
  eneg : Bool
  /-- the exponent digits read as a decimal number -/
  exp : Nat
  /-- the number of exponent digits -/
  edigits : Nat
  /-- the characters left unread -/
  rest : List Char

/-- An optional sign. -/
def scan_sign : List Char → Bool × List Char
  | [] => (false, [])
  | c :: cs =>
    if c = '-' then (true, cs) else if c = '+' then (false, cs) else (false, c :: cs)

/-- The characters a floating-point extraction accepts (the accumulation loop of the
`num_get` facet for `double` in the "C" locale): an optional sign, digits, at most one
decimal point, and, once a mantissa digit has been seen, one `e`/`E` with an optional sign
followed by digits.  The scan is greedy and stops at the first character that does not fit. -/
def scan (s : List Char) : scanned :=
  let (neg, s1) := scan_sign s
  let (ip, n1, s2) := digits 0 0 s1
  let (mant, n2, s3) :=
    match s2 with
    | [] => (ip, 0, [])
    | c :: cs => if c = '.' then digits ip 0 cs else (ip, 0, c :: cs)
  match s3 with
  | [] => ⟨neg, mant, n1 + n2, n2, false, false, 0, 0, []⟩
  | c :: cs =>
    if (c = 'e' ∨ c = 'E') ∧ 0 < n1 + n2 then
      let (eneg, s4) := scan_sign cs
      let (ex, n3, s5) := digits 0 0 s4
      ⟨neg, mant, n1 + n2, n2, true, eneg, ex, n3, s5⟩
    else ⟨neg, mant, n1 + n2, n2, false, false, 0, 0, c :: cs⟩

/-- The signed mantissa `±mant / 10^nfrac`. -/
def scanned.mantissa (x : scanned) : ℚ :=
  (if x.neg then -1 else 1) * (x.mant : ℚ) / 10 ^ x.nfrac

/-- The number denoted by the scanned text when mantissa and exponent are both complete. -/
def scanned.value (x : scanned) : ℚ :=
  if x.eneg then x.mantissa / 10 ^ x.exp else x.mantissa * 10 ^ x.exp

/-- A magnitude at or above `2^1024 - 2^970` rounds to an infinite `double`. -/
def overflows (q : ℚ) : Bool :=
  decide ((2 : ℚ) ^ 1024 - 2 ^ 970 ≤ |q|)

/-- `ss >> tmp` for a `double tmp` on a fresh stream holding `s`: `none` when the extraction
sets `failbit`, otherwise the number read and the characters still in the buffer.  After
skipping white space the accepted characters are collected by `scan`; the collected text is
then converted as a whole, which fails when it has no mantissa digit, when an `e` is not
followed by an exponent digit, or when the number is too large for a `double`. -/
def extract (s : List Char) : Option (ℚ × List Char) :=
  match skipws s with
  | [] => none
  | c :: cs =>
    let x := scan (c :: cs)
    if x.ndigits = 0 then none
    else if x.sci ∧ x.edigits = 0 then none
    else if overflows x.value then none
    else some (x.value, x.rest)

/-- `numeric` of `calc.cpp`: the extraction did not fail and nothing is left in the buffer
(`!(!ss || ss.rdbuf()->in_avail() > 0)`). -/
def numeric (value : String) : Bool :=
  match extract value.data with
  | none => false
  | some (_, avail) => !(decide (0 < avail.length))

/-- `atof` for decimal texts: the number denoted by the longest prefix that is a decimal
floating-point literal after leading white space, `0` when there is none.  An `e` that is not
followed by an exponent digit is not part of the literal. -/
def atof (s : String) : ℚ :=
  let x := scan (skipws s.data)
  if x.ndigits = 0 then 0
  else if x.edigits = 0 then x.mantissa
  else x.value

/-! ## Data model -/

/-- A JSON value of the response document. -/
inductive json where
  | null
  | string (s : String)
  | number (q : ℚ)
  | object (members : List (String × json))

mutual
/-- Equality of JSON values is decidable. -/
def json.decEq : (a b : json) → Decidable (a = b)
  | .null, .null => isTrue rfl
  | .string s, .string t =>
    if h : s = t then isTrue (by rw [h]) else isFalse (fun e => h (json.string.inj e))
  | .number p, .number q =>
    if h : p = q then isTrue (by rw [h]) else isFalse (fun e => h (json.number.inj e))
  | .object xs, .object ys =>
    match json.decEqMembers xs ys with
    | isTrue h => isTrue (by rw [h])
    | isFalse h => isFalse (fun e => h (json.object.inj e))
  | .null, .string _ => isFalse (fun e => json.noConfusion e)
  | .null, .number _ => isFalse (fun e => json.noConfusion e)
  | .null, .object _ => isFalse (fun e => json.noConfusion e)
  | .string _, .null => isFalse (fun e => json.noConfusion e)
  | .string _, .number _ => isFalse (fun e => json.noConfusion e)
  | .string _, .object _ => isFalse (fun e => json.noConfusion e)
  | .number _, .null => isFalse (fun e => json.noConfusion e)
  | .number _, .string _ => isFalse (fun e => json.noConfusion e)
  | .number _, .object _ => isFalse (fun e => json.noConfusion e)
  | .object _, .null => isFalse (fun e => json.noConfusion e)
  | .object _, .string _ => isFalse (fun e => json.noConfusion e)
  | .object _, .number _ => isFalse (fun e => json.noConfusion e)
/-- Equality of member lists is decidable. -/
def json.decEqMembers : (xs ys : List (String × json)) → Decidable (xs = ys)
  | [], [] => isTrue rfl
  | [], _ :: _ => isFalse (fun e => List.noConfusion e)
  | _ :: _, [] => isFalse (fun e => List.noConfusion e)
  | (k, v) :: xs, (l, w) :: ys =>
    if hk : k = l then
      match json.decEq v w with
      | isTrue hv =>
        match json.decEqMembers xs ys with
        | isTrue ht => isTrue (by rw [hk, hv, ht])
        | isFalse ht => isFalse (fun e => ht (List.cons.inj e).2)
      | isFalse hv => isFalse (fun e => hv (Prod.mk.inj (List.cons.inj e).1).2)
    else isFalse (fun e => hk (Prod.mk.inj (List.cons.inj e).1).1)
end

instance : DecidableEq json := json.decEq

/-- The order of `std::string`: lexicographic on the character codes. -/
def lex_lt : List Char → List Char → Bool
  | _, [] => false
  | [], _ :: _ => true
  | a :: as, b :: bs => decide (a.toNat < b.toNat) || (a.toNat == b.toNat && lex_lt as bs)

/-- The key order of a JSON object (a `std::map` from `std::string`). -/
def key_lt (a b : String) : Bool :=
  lex_lt a.data b.data

/-- `d[k] = v` on a JSON object, whose members are kept ordered by key: the value of an
existing member is replaced, a new member is inserted at its place in the order. -/
def doc_set (k : String) (v : json) : List (String × json) → List (String × json)
  | [] => [(k, v)]
  | (k', v') :: rest =>
    if k = k' then (k, v) :: rest
    else if key_lt k k' then (k, v) :: (k', v') :: rest
    else (k', v') :: doc_set k v rest

/-- The member of a JSON object stored under a key, if any. -/
def doc_get (d : List (String × json)) (k : String) : Option json :=
  List.lookup k d

/-- Modelled from the spec: the parameter map `kvp` (declared in `calc.h`, which is not part
of the sources at hand), a mapping from parameter name to raw string value. -/
abbrev kvp := List (String × String)

/-- `query_params.find(k)`: `none` stands for the iterator `query_params.end()`, `some v` for
an iterator at the entry whose `second` is `v`. -/
def find (query_params : kvp) (k : String) : Option String :=
  List.lookup k query_params

/-- `std::string::empty`. -/
def empty (s : String) : Bool :=
  s.data.isEmpty

/-- `s[0]`; for an empty `std::string` this is the terminating null character. -/
def front (s : String) : Char :=
  match s.data with
  | [] => Char.ofNat 0
  | c :: _ => c

/-- Modelled from the spec: the Input Record (declared in `calc.h`, which is not part of the
sources at hand): three numbers, each `0` until a validator stores a value. -/
structure input_t where
  air_temp : ℚ := 0
  dew_temp : ℚ := 0
  relative_humidity : ℚ := 0
  deriving DecidableEq

/-- Modelled from the spec: the response `response_t` (declared in `calc.h`, which is not
part of the sources at hand): the validity flag, the response document and the Input Record,
in the order of the initialiser `{true, json::object(...)}` of `validate`. -/
structure response_t where
  valid : Bool
  doc : List (String × json)
  input : input_t := {}
  deriving DecidableEq

/-- Modelled from the spec: the Fahrenheit to Celsius conversion `cvt_f_c` (not part of the
sources at hand), `f_to_c(f) -> (f-32) * 5/9`. -/
def cvt_f_c (f : ℚ) : ℚ :=
  (f - 32) * 5 / 9

/-- The four or five assignments every rejecting branch makes: `valid = false` and the
members `status_key`, `message`, `expected`, `actual` of the document, in this order. -/
def reject (r : response_t) (status_key message expected : String) (actual : json) :
    response_t :=
  { r with
    valid := false
    doc := doc_set "actual" actual (doc_set "expected" (json.string expected)
      (doc_set "message" (json.string message)
        (doc_set status_key (json.string "error") r.doc))) }

/-! ## The validators -/

/-- `validate_air_temp` (calc.cpp 37-62).  When the key is absent the first condition is
false by short circuit and the `else if (it->second.empty())` that follows reads through the
end iterator: no defined result. -/
def validate_air_temp (query_params : kvp) (r : response_t) : Option response_t :=
  match find query_params "air_temp" with
  | some second =>
    if !empty second then
      if numeric second then
        some { r with input := { r.input with air_temp := atof second } }
      else
        some (reject r "status" "Non-numeric value provided for air_temp."
          "a floating point value" (json.string second))
    else if empty second then
      some (reject r "status" "No value provided for air_temp input parameter."
        "a floating point value >80 deg Fahrenheit" (json.string second))
    else
      some (reject r "status" "Required input parameter not specified."
        "air_temp" json.null)
  | none => none

/-- `validate_air_temp_uom` (calc.cpp 64-82).  The rejecting branch writes the member
`"stats"`, not `"status"`. -/
def validate_air_temp_uom (query_params : kvp) (r : response_t) : response_t :=
  match find query_params "air_uom" with
  | some second =>
    let uom := String.singleton (toupper (front second))
    if uom = "F" then
      { r with input := { r.input with air_temp := cvt_f_c r.input.air_temp } }
    else if uom = "C" then
      r
    else
      reject r "stats" "Unknown unit of measure provided."
        "One of 'uom=C' or 'uom=F'." (json.string second)
  | none => r

/-- `validate_dewpoint` (calc.cpp 84-104). -/
def validate_dewpoint (query_params : kvp) (r : response_t) : response_t :=
  match find query_params "dew_temp" with
  | some second =>
    if !empty second then
      if numeric second then
        { r with input := { r.input with dew_temp := atof second } }
      else if empty second then
        reject r "status" "No value provided for dew_temp input parameter."
          "a floating point value [-405.4 F, air_temp]" (json.string second)
      else
        reject r "status" "Non-numeric value provided for dew_temp."
          "a floating point value [-405.4 F, air_temp]" (json.string second)
    else r
  | none => r

/-- `validate_dewpoint_uom` (calc.cpp 106-125). -/
def validate_dewpoint_uom (query_params : kvp) (r : response_t) : response_t :=
  match find query_params "dew_uom" with
  | some second =>
    let dew_uom := String.singleton (toupper (front second))
    if dew_uom = "C" then
      r
    else if dew_uom = "F" then
      { r with input := { r.input with dew_temp := cvt_f_c r.input.dew_temp } }
    else
      reject r "status" "Unknown unit of measure provided."
        "One of 'dew_uom=C' or 'dew_uom=F'." (json.string second)
  | none => r

/-- `validate_relative_humidity` (calc.cpp 127-147). -/
def validate_relative_humidity (query_params : kvp) (r : response_t) : response_t :=
  match find query_params "relative_humidity" with
  | some second =>
    if !empty second then
      if numeric second then
        { r with input := { r.input with relative_humidity := atof second } }
      else if empty second then
        reject r "status" "No value provided for relative_humidity input parameter."
          "a floating point value (0,100)" (json.string second)
      else
        reject r "status" "Non-numeric value provided for relative_humidity."
          "a floating point value (0,100)" (json.string second)
    else r
  | none => r

/-- The two assignments to the document of a failing range check, with `valid = false`. -/
def reject_range (r : response_t) (message : String) : response_t :=
  { r with
    valid := false
    doc := doc_set "message" (json.string message)
      (doc_set "status" (json.string "error") r.doc) }

/-- The air-temperature floor `(80/3)`: a quotient of two `int` literals. -/
def air_temp_floor : ℚ :=
  (((80 : Int) / 3 : Int) : ℚ)

/-- `validate_input_values` (calc.cpp 149-167): three range checks on the Input Record, one
after the other. -/
def validate_input_values (_query_params : kvp) (r : response_t) : response_t :=
  let r :=
    if r.input.air_temp < air_temp_floor then
      reject_range r ("The valid input limits for air temperature is greater than " ++
        "80 deg Fahrenheit or 26.66667 deg Celsius.")
    else r
  let r :=
    if r.input.dew_temp < -243 ∨ r.input.dew_temp > r.input.air_temp then
      reject_range r ("The valid input limits for dewpoint temperature are between " ++
        "-243C and the input air temperature.")
    else r
  let r :=
    if r.input.relative_humidity < 40 then
      reject_range r "The valid input limits for relative humidity is greater than 40."
    else r
  r

/-- `validate_dew_rel_hum` (calc.cpp 169-181).  In `doc["actual"] = it->second, it2->second`
the comma is the comma operator: the relative-humidity text is assigned. -/
def validate_dew_rel_hum (query_params : kvp) (r : response_t) : response_t :=
  match find query_params "relative_humidity" with
  | some second =>
    if !empty second then
      match find query_params "dew_temp" with
      | some second2 =>
        if !empty second2 then
          reject r "status" "Requires rh or dew_temp, not both."
            "a floating point value rh = (0,100) or dew_temp = [-405.4F , air_temp]"
            (json.string second)
        else r
      | none => r
    else r
  | none => r

/-- The response `validate` starts from: `{true, json::object({{"status","success"}})}`. -/
def initial_response : response_t :=
  { valid := true, doc := [("status", json.string "success")], input := {} }

/-- `validate` (calc.cpp 23-35): the seven validators in their fixed order, all on the same
response. -/
def validate (query_params : kvp) : Option response_t :=
  (validate_air_temp query_params initial_response).map fun response =>
    validate_dew_rel_hum query_params
      (validate_input_values query_params
        (validate_relative_humidity query_params
          (validate_dewpoint_uom query_params
            (validate_dewpoint query_params
              (validate_air_temp_uom query_params response)))))

/-! ## The pipeline with the read through the end iterator as an unknown -/

/-- `validate_air_temp` (calc.cpp 37-62) with the outcome of the read through the end
iterator left open: when the key `air_temp` is absent, `it->second` in the condition of line
49 and in the assignment of line 54 yields the unknown string `past`.  With the key present
this is `validate_air_temp`. -/
def validate_air_temp_reading (past : String) (query_params : kvp) (r : response_t) :
    response_t :=
  match find query_params "air_temp" with
  | some second =>
    if !empty second then
      if numeric second then
        { r with input := { r.input with air_temp := atof second } }
      else
        reject r "status" "Non-numeric value provided for air_temp."
          "a floating point value" (json.string second)
    else if empty second then
      reject r "status" "No value provided for air_temp input parameter."
        "a floating point value >80 deg Fahrenheit" (json.string second)
    else
      reject r "status" "Required input parameter not specified."
        "air_temp" json.null
  | none =>
    if empty past then
      reject r "status" "No value provided for air_temp input parameter."
        "a floating point value >80 deg Fahrenheit" (json.string past)
    else
      reject r "status" "Required input parameter not specified."
        "air_temp" json.null

/-- `validate` (calc.cpp 23-35) over `validate_air_temp_reading`: the response returned
whatever string `past` the read through the end iterator yields. -/
def validate_reading (past : String) (query_params : kvp) : response_t :=
  validate_dew_rel_hum query_params
    (validate_input_values query_params
      (validate_relative_humidity query_params
        (validate_dewpoint_uom query_params
          (validate_dewpoint query_params
            (validate_air_temp_uom query_params
              (validate_air_temp_reading past query_params initial_response))))))

/-! ## The calculation -/

/-- Modelled from the spec: the Celsius to Fahrenheit conversion `cvt_c_f` (not part of the
sources at hand), `c_to_f(c) -> c*9/5 + 32`. -/
def cvt_c_f (c : ℚ) : ℚ :=
  c * 9 / 5 + 32

/-- Modelled from the spec: the three physics formulas `calculate_vapor_pressure`,
`calculate_relative_humidity` and `calculate_heat_index` (not part of the sources at hand),
taken as arbitrary functions. -/
structure physics where
  calculate_vapor_pressure : ℚ → ℚ
  calculate_relative_humidity : ℚ → ℚ → ℚ
  calculate_heat_index : ℚ → ℚ → ℚ

/-- `make_json_pair` (calc.cpp 13-15). -/
def make_json_pair (uom : String) (value : ℚ) : json :=
  json.object [("uom", json.string uom), ("value", json.number value)]

/-- `d["data"]["absolute_humidity"] = v`: the member `data` is created as an object when the
document has none (or has a null there). -/
def set_absolute_humidity (v : json) (d : List (String × json)) : List (String × json) :=
  match doc_get d "data" with
  | some (json.object members) =>
    doc_set "data" (json.object (doc_set "absolute_humidity" v members)) d
  | _ => doc_set "data" (json.object [("absolute_humidity", v)]) d

/-- `cvt_dew_rh`, the function whose definition stands inside the body of `calculate`
(calc.cpp 186-203), as its effect on `*r`.  With a non-empty `relative_humidity` the
statement `return calculate_relative_humidity(v_p, s_v_p);` comes before the three
statements that convert the temperature and write the output pair, so these are never
executed and `*r` is left as it was. -/
def cvt_dew_rh (φ : physics) (query_params : kvp) (r : response_t) : response_t :=
  match find query_params "relative_humidity" with
  | some second =>
    if !empty second then
      r
    else
      let air_temp := cvt_c_f r.input.air_temp
      let heat_index := φ.calculate_heat_index air_temp r.input.relative_humidity
      { r with
        input := { r.input with air_temp := air_temp }
        doc := set_absolute_humidity (make_json_pair "deg F" heat_index) r.doc }
  | none =>
    let air_temp := cvt_c_f r.input.air_temp
    let heat_index := φ.calculate_heat_index air_temp r.input.relative_humidity
    { r with
      input := { r.input with air_temp := air_temp }
      doc := set_absolute_humidity (make_json_pair "deg F" heat_index) r.doc }

/-- `calculate` (calc.cpp 184-205) as written: `auto r = response;`, then the definition of
`cvt_dew_rh`, which is a definition and not a call, then `return r;`.  The name `response` is
not declared in calc.cpp and is taken as a parameter next to the argument `r`. -/
def calculate (response : response_t) (_r : response_t) : response_t :=
  let r := response
  r

/-! ## Parameter maps with one entry changed -/

/-- The parameter map without the key `k`. -/
def kvp_erase (m : kvp) (k : String) : kvp :=
  m.filter fun p => p.1 != k

/-- The parameter map with the value `v` under the key `k`. -/
def kvp_set (m : kvp) (k v : String) : kvp :=
  (k, v) :: kvp_erase m k

/-! ## Decimal texts -/

/-- The value of a run of decimal digits. -/
def digits_value (ds : List Char) : Nat :=
  ds.foldl (fun a c => a * 10 + (c.toNat - 48)) 0

/-- The decimal formatting of a number, in the spec's words "strings produced by formatting a
finite float": an optional `-`, the digits of the integer part, an optional point with
fraction digits, and an optional exponent `e`, sign, digits (as printed by `%f`, `%e`, `%g`
and by stream insertion). -/
structure decimal_text where
  neg : Bool
  int_part : List Char
  /-- empty when the text has no decimal point -/
  frac_part : List Char
  /-- the `-` flag and the digits of the exponent, when there is one -/
  exponent : Option (Bool × List Char)

/-- Well-formed decimal texts: every part is made of digits, the integer part and the
exponent, when present, are not empty. -/
def decimal_text.wf (d : decimal_text) : Prop :=
  d.int_part ≠ [] ∧ (∀ c ∈ d.int_part, isdigit c = true) ∧
  (∀ c ∈ d.frac_part, isdigit c = true) ∧
  ∀ e, d.exponent = some e → e.2 ≠ [] ∧ ∀ c ∈ e.2, isdigit c = true

/-- The characters of the exponent part. -/
def decimal_text.exponent_text (d : decimal_text) : List Char :=
  match d.exponent with
  | none => []
  | some (eneg, eds) => 'e' :: (if eneg then '-' else '+') :: eds

/-- The characters of a decimal text. -/
def decimal_text.text (d : decimal_text) : List Char :=
  (if d.neg then ['-'] else []) ++ (d.int_part ++
    ((if d.frac_part = [] then [] else '.' :: d.frac_part) ++ d.exponent_text))

/-- The number a decimal text denotes. -/
def decimal_text.value (d : decimal_text) : ℚ :=
  let mantissa : ℚ := (if d.neg then -1 else 1) *
    (digits_value (d.int_part ++ d.frac_part) : ℚ) / 10 ^ d.frac_part.length
  match d.exponent with
  | none => mantissa
  | some (eneg, eds) =>
    if eneg then mantissa / 10 ^ digits_value eds else mantissa * 10 ^ digits_value eds

/-- A character at which the scan of a complete decimal text stops: not a digit, not the
point, not an exponent letter.  White space and letters other than `e` are such. -/
def stops_scan (c : Char) : Prop :=
  isdigit c = false ∧ c ≠ '.' ∧ c ≠ 'e' ∧ c ≠ 'E'

/-! ## Auxiliary facts -/

theorem doc_get_set_same (k : String) (v : json) (d : List (String × json)) :
    doc_get (doc_set k v d) k = some v := by
  induction d with
  | nil => simp [doc_set, doc_get, List.lookup]
  | cons p rest ih =>
    obtain ⟨k', v'⟩ := p
    unfold doc_set
    by_cases h1 : k = k'
    · simp [h1, doc_get, List.lookup]
    · by_cases h2 : key_lt k k' = true
      · simp [h1, h2, doc_get, List.lookup]
      · have h3 : (k == k') = false := by simpa using h1
        simp only [h1, h2, if_false, doc_get, List.lookup, h3]
        exact ih

theorem doc_get_set_other (k k0 : String) (v : json) (d : List (String × json))
    (hk : k0 ≠ k) : doc_get (doc_set k v d) k0 = doc_get d k0 := by
  induction d with
  | nil =>
    have h3 : (k0 == k) = false := by simpa using hk
    simp [doc_set, doc_get, List.lookup, h3]
  | cons p rest ih =>
    obtain ⟨k', v'⟩ := p
    have h3 : (k0 == k) = false := by simpa using hk
    unfold doc_set
    by_cases h1 : k = k'
    · subst h1
      simp [doc_get, List.lookup, h3]
    · by_cases h2 : key_lt k k' = true
      · simp [h1, h2, doc_get, List.lookup, h3]
      · simp only [h1, h2, if_false, doc_get, List.lookup]
        cases hq : (k0 == k') with
        | true => rfl
        | false => exact ih

theorem numeric_not_empty (s : String) (h : numeric s = true) : empty s = false := by
  cases hs : s.data with
  | nil => simp [numeric, extract, skipws, hs] at h
  | cons c cs => simp [empty, hs]

theorem toupper_eq_F (c : Char) : toupper c = 'F' ↔ (c = 'F' ∨ c = 'f') := by
  unfold toupper
  constructor
  · intro h
    split at h
    · rename_i hr
      obtain ⟨h1, h2⟩ := hr
      right
      have e := Char.ofNat_toNat c
      rw [← e] at h ⊢
      generalize c.toNat = n at *
      interval_cases n <;> first | rfl | (exfalso; revert h; decide)
    · exact Or.inl h
  · rintro (h | h) <;> subst h <;> decide

theorem toupper_eq_C (c : Char) : toupper c = 'C' ↔ (c = 'C' ∨ c = 'c') := by
  unfold toupper
  constructor
  · intro h
    split at h
    · rename_i hr
      obtain ⟨h1, h2⟩ := hr
      right
      have e := Char.ofNat_toNat c
      rw [← e] at h ⊢
      generalize c.toNat = n at *
      interval_cases n <;> first | rfl | (exfalso; revert h; decide)
    · exact Or.inl h
  · rintro (h | h) <;> subst h <;> decide

theorem uom_eq_F (c : Char) : String.singleton (toupper c) = "F" ↔ (c = 'F' ∨ c = 'f') := by
  rw [← toupper_eq_F]
  simp [String.singleton, String.ext_iff]

theorem uom_eq_C (c : Char) : String.singleton (toupper c) = "C" ↔ (c = 'C' ∨ c = 'c') := by
  rw [← toupper_eq_C]
  simp [String.singleton, String.ext_iff]


/-! ## What each validator does to the validity flag and the message -/

theorem validate_air_temp_present (m : kvp) (r : response_t) (a : String)
    (ha : find m "air_temp" = some a) : ∃ r1, validate_air_temp m r = some r1 := by
  unfold validate_air_temp
  rw [ha]
  dsimp only
  split
  · split <;> exact ⟨_, rfl⟩
  · split <;> exact ⟨_, rfl⟩

theorem reject_message (r : response_t) (k msg ex : String) (act : json) :
    doc_get (reject r k msg ex act).doc "message" = some (json.string msg) := by
  unfold reject
  dsimp only
  rw [doc_get_set_other _ _ _ _ (by decide), doc_get_set_other _ _ _ _ (by decide),
    doc_get_set_same]

theorem reject_actual (r : response_t) (k msg ex : String) (act : json) :
    doc_get (reject r k msg ex act).doc "actual" = some act := by
  unfold reject
  dsimp only
  rw [doc_get_set_same]

theorem reject_expected (r : response_t) (k msg ex : String) (act : json) :
    doc_get (reject r k msg ex act).doc "expected" = some (json.string ex) := by
  unfold reject
  dsimp only
  rw [doc_get_set_other _ _ _ _ (by decide), doc_get_set_same]

theorem validate_dew_rel_hum_both (m : kvp) (r : response_t) (h d : String)
    (hh : find m "relative_humidity" = some h) (hne : empty h = false)
    (hd : find m "dew_temp" = some d) (hdne : empty d = false) :
    (validate_dew_rel_hum m r).valid = false ∧
      doc_get (validate_dew_rel_hum m r).doc "message" =
        some (json.string "Requires rh or dew_temp, not both.") := by
  unfold validate_dew_rel_hum
  simp only [hh, hd, hne, hdne, Bool.not_false, if_true]
  exact ⟨rfl, reject_message _ _ _ _ _⟩

/-- With `air_temp` present, a request that carries both a non-empty `relative_humidity` and
a non-empty `dew_temp` is rejected and the last message written is the one of
`validate_dew_rel_hum`. -/
theorem validate_both_humidity_inputs (m : kvp) (a h d : String)
    (ha : find m "air_temp" = some a)
    (hh : find m "relative_humidity" = some h) (hne : empty h = false)
    (hd : find m "dew_temp" = some d) (hdne : empty d = false) :
    ∃ r, validate m = some r ∧ r.valid = false ∧
      doc_get r.doc "message" = some (json.string "Requires rh or dew_temp, not both.") := by
  obtain ⟨r1, h1⟩ := validate_air_temp_present m initial_response a ha
  have hv : validate m = some (validate_dew_rel_hum m (validate_input_values m
      (validate_relative_humidity m (validate_dewpoint_uom m (validate_dewpoint m
        (validate_air_temp_uom m r1)))))) := by
    unfold validate
    rw [h1]
    rfl
  exact ⟨_, hv, validate_dew_rel_hum_both m _ h d hh hne hd hdne⟩

/-! ## The claims -/

theorem reject_status (r : response_t) (msg ex : String) (act : json) :
    doc_get (reject r "status" msg ex act).doc "status" = some (json.string "error") := by
  unfold reject
  dsimp only
  rw [doc_get_set_other _ _ _ _ (by decide), doc_get_set_other _ _ _ _ (by decide),
    doc_get_set_other _ _ _ _ (by decide), doc_get_set_same]

theorem validate_dew_rel_hum_both_status (m : kvp) (r : response_t) (h d : String)
    (hh : find m "relative_humidity" = some h) (hne : empty h = false)
    (hd : find m "dew_temp" = some d) (hdne : empty d = false) :
    doc_get (validate_dew_rel_hum m r).doc "status" = some (json.string "error") ∧
      doc_get (validate_dew_rel_hum m r).doc "actual" = some (json.string h) := by
  unfold validate_dew_rel_hum
  simp only [hh, hd, hne, hdne, Bool.not_false, if_true]
  exact ⟨reject_status _ _ _ _, reject_actual _ _ _ _ _⟩

/-- Where `validate_air_temp` has a result, `validate_air_temp_reading` has the same one,
whatever the unknown string. -/
theorem validate_air_temp_reading_eq (past : String) (m : kvp) (r r' : response_t)
    (hr : validate_air_temp m r = some r') : validate_air_temp_reading past m r = r' := by
  cases hf : find m "air_temp" with
  | none =>
    unfold validate_air_temp at hr
    rw [hf] at hr
    exact absurd hr (by simp)
  | some second =>
    have e : validate_air_temp m r = some (validate_air_temp_reading past m r) := by
      unfold validate_air_temp validate_air_temp_reading
      rw [hf]
      dsimp only
      split_ifs <;> rfl
    rw [e] at hr
    injection hr

/-- Where `validate` has a result, `validate_reading` has the same one, whatever the unknown
string. -/
theorem validate_reading_eq (past : String) (m : kvp) (r : response_t)
    (hr : validate m = some r) : validate_reading past m = r := by
  cases h1 : validate_air_temp m initial_response with
  | none =>
    unfold validate at hr
    rw [h1] at hr
    exact absurd hr (by simp)
  | some r1 =>
    have e : validate m = some (validate_dew_rel_hum m (validate_input_values m
        (validate_relative_humidity m (validate_dewpoint_uom m (validate_dewpoint m
          (validate_air_temp_uom m r1)))))) := by
      unfold validate
      rw [h1]
      rfl
    rw [e] at hr
    have hr' := Option.some.inj hr
    unfold validate_reading
    rw [validate_air_temp_reading_eq past m _ r1 h1]
    exact hr'

/-- C1: for every parameter map in which `relative_humidity` and `dew_temp` are both present
with non-empty values, whatever the other keys are and whether or not the two values are
numeric, the response of `validate` has `valid = false`, status "error" and as final message
"Requires rh or dew_temp, not both.".  This holds also when `air_temp` is absent, for every
string the read through the end iterator in `validate_air_temp` may yield: both branches
after that read only reject, and `validate_dew_rel_hum`, which runs last, overwrites the
message. -/
theorem validate_both_humidity_inputs_rejected (past : String) (m : kvp) (h d : String)
    (hh : find m "relative_humidity" = some h) (hne : empty h = false)
    (hd : find m "dew_temp" = some d) (hdne : empty d = false) :
    (validate_reading past m).valid = false ∧
    doc_get (validate_reading past m).doc "status" = some (json.string "error") ∧
    doc_get (validate_reading past m).doc "message" =
      some (json.string "Requires rh or dew_temp, not both.") ∧
    (∀ r, validate m = some r → validate_reading past m = r) := by
  refine ⟨?_, ?_, ?_, fun r hr => validate_reading_eq past m r hr⟩
  · unfold validate_reading
    exact (validate_dew_rel_hum_both m _ h d hh hne hd hdne).1
  · unfold validate_reading
    exact (validate_dew_rel_hum_both_status m _ h d hh hne hd hdne).1
  · unfold validate_reading
    exact (validate_dew_rel_hum_both m _ h d hh hne hd hdne).2

theorem validate_both_humidity_inputs_rejected_witness :
    ((validate_reading "" [("relative_humidity", "50"), ("dew_temp", "60")]).valid = false ∧
      doc_get (validate_reading "" [("relative_humidity", "50"), ("dew_temp", "60")]).doc
        "message" = some (json.string "Requires rh or dew_temp, not both.")) ∧
    ((validate_reading "junk" [("relative_humidity", "50"), ("dew_temp", "60")]).valid
        = false ∧
      doc_get (validate_reading "junk" [("relative_humidity", "50"), ("dew_temp", "60")]).doc
        "message" = some (json.string "Requires rh or dew_temp, not both.")) :=
  ⟨⟨(validate_both_humidity_inputs_rejected "" [("relative_humidity", "50"),
        ("dew_temp", "60")] "50" "60" rfl rfl rfl rfl).1,
      (validate_both_humidity_inputs_rejected "" [("relative_humidity", "50"),
        ("dew_temp", "60")] "50" "60" rfl rfl rfl rfl).2.2.1⟩,
    ⟨(validate_both_humidity_inputs_rejected "junk" [("relative_humidity", "50"),
        ("dew_temp", "60")] "50" "60" rfl rfl rfl rfl).1,
      (validate_both_humidity_inputs_rejected "junk" [("relative_humidity", "50"),
        ("dew_temp", "60")] "50" "60" rfl rfl rfl rfl).2.2.1⟩⟩

/-- C2: for every parameter map without the key `air_temp` and every incoming response,
`validate_air_temp` reads `it->second` through the end iterator before it can reach the
branch for a missing key, so it has no defined result. -/
theorem validate_air_temp_absent (m : kvp) (r : response_t)
    (h : find m "air_temp" = none) : validate_air_temp m r = none := by
  unfold validate_air_temp
  rw [h]

theorem validate_air_temp_absent_witness :
    find [] "air_temp" = none ∧ validate_air_temp [] initial_response = none :=
  ⟨rfl, validate_air_temp_absent [] initial_response rfl⟩


/-! ## Steps of the pipeline that accept their field -/

theorem validate_air_temp_numeric (m : kvp) (r : response_t) (t : String)
    (ht : find m "air_temp" = some t) (hn : numeric t = true) :
    validate_air_temp m r = some { r with input := { r.input with air_temp := atof t } } := by
  unfold validate_air_temp
  simp [ht, hn, numeric_not_empty t hn]

theorem validate_air_temp_uom_F (m : kvp) (r : response_t) (u : String)
    (hu : find m "air_uom" = some u) (hF : front u = 'F' ∨ front u = 'f') :
    validate_air_temp_uom m r =
      { r with input := { r.input with air_temp := cvt_f_c r.input.air_temp } } := by
  unfold validate_air_temp_uom
  simp [hu, (uom_eq_F (front u)).mpr hF]

theorem validate_dewpoint_absent (m : kvp) (r : response_t)
    (h : find m "dew_temp" = none) : validate_dewpoint m r = r := by
  unfold validate_dewpoint
  rw [h]

theorem validate_dewpoint_uom_absent (m : kvp) (r : response_t)
    (h : find m "dew_uom" = none) : validate_dewpoint_uom m r = r := by
  unfold validate_dewpoint_uom
  rw [h]

theorem validate_relative_humidity_absent (m : kvp) (r : response_t)
    (h : find m "relative_humidity" = none) : validate_relative_humidity m r = r := by
  unfold validate_relative_humidity
  rw [h]

theorem validate_relative_humidity_numeric (m : kvp) (r : response_t) (h : String)
    (hh : find m "relative_humidity" = some h) (hn : numeric h = true) :
    validate_relative_humidity m r =
      { r with input := { r.input with relative_humidity := atof h } } := by
  unfold validate_relative_humidity
  simp [hh, hn, numeric_not_empty h hn]

theorem validate_dew_rel_hum_no_dew (m : kvp) (r : response_t)
    (h : find m "dew_temp" = none) : validate_dew_rel_hum m r = r := by
  unfold validate_dew_rel_hum
  rw [h]
  split
  · split <;> rfl
  · rfl

theorem validate_dew_rel_hum_no_rh (m : kvp) (r : response_t)
    (h : find m "relative_humidity" = none) : validate_dew_rel_hum m r = r := by
  unfold validate_dew_rel_hum
  rw [h]

theorem find_none_of_no_key (m : kvp) (k : String) (h : ∀ p ∈ m, p.1 ≠ k) :
    find m k = none := by
  induction m with
  | nil => rfl
  | cons p rest ih =>
    obtain ⟨k', v'⟩ := p
    have h1 : (k == k') = false := by
      have := h (k', v') (List.mem_cons_self _ _)
      simpa using fun e => this e.symm
    have h2 := ih (fun q hq => h q (List.mem_cons_of_mem _ hq))
    unfold find at h2 ⊢
    simp only [List.lookup, h1]
    exact h2

theorem air_temp_floor_eq : air_temp_floor = 26 := by
  norm_num [air_temp_floor]

/-- C5 as stated fails at the input the claim names: `{air_temp: "90", air_uom: "F"}` is not
accepted. -/
theorem validate_air_only_not_valid :
    ¬ ∃ r, validate [("air_temp", "90"), ("air_uom", "F")] = some r ∧ r.valid = true ∧
      r.input.air_temp = 290 / 9 := by
  decide!

/-- The whole response for a request that carries a Fahrenheit air temperature of at least
80 and nothing else: the temperature is stored in Celsius and passes its check, the dewpoint
check passes on the default `0`, and the relative-humidity check fails on the default `0`. -/
theorem validate_air_only_response (m : kvp) (t u : String)
    (ht : find m "air_temp" = some t) (hn : numeric t = true) (h80 : 80 ≤ atof t)
    (hu : find m "air_uom" = some u) (hF : front u = 'F')
    (honly : ∀ p ∈ m, p.1 = "air_temp" ∨ p.1 = "air_uom") :
    validate m = some
      { valid := false
        doc := [("message",
            json.string "The valid input limits for relative humidity is greater than 40."),
          ("status", json.string "error")]
        input := ⟨(atof t - 32) * 5 / 9, 0, 0⟩ } := by
  have hdew : find m "dew_temp" = none := by
    apply find_none_of_no_key
    intro p hp e
    have := honly p hp
    rw [e] at this
    exact absurd this (by decide)
  have hduom : find m "dew_uom" = none := by
    apply find_none_of_no_key
    intro p hp e
    have := honly p hp
    rw [e] at this
    exact absurd this (by decide)
  have hrh : find m "relative_humidity" = none := by
    apply find_none_of_no_key
    intro p hp e
    have := honly p hp
    rw [e] at this
    exact absurd this (by decide)
  have hair : ¬ ((atof t - 32) * 5 / 9 < (26 : ℚ)) := by
    rw [not_lt, le_div_iff₀ (by norm_num)]
    linarith
  have hdewr : ¬ ((0 : ℚ) < -243 ∨ (0 : ℚ) > (atof t - 32) * 5 / 9) := by
    rw [not_lt] at hair
    rintro (h | h)
    · norm_num at h
    · linarith
  unfold validate
  rw [validate_air_temp_numeric m _ t ht hn, Option.map_some',
    validate_air_temp_uom_F m _ u hu (Or.inl hF), validate_dewpoint_absent m _ hdew,
    validate_dewpoint_uom_absent m _ hduom, validate_relative_humidity_absent m _ hrh,
    validate_dew_rel_hum_no_dew m _ hdew]
  unfold validate_input_values
  simp only [initial_response, cvt_f_c, air_temp_floor_eq, hair, hdewr, if_false]
  rfl

/-- C5, amended: for every parameter map whose only keys are `air_temp` (a numeric string `t`
with `t >= 80`) and `air_uom` with first character `F`, `validate` returns a response with
`valid = false` whose stored `air_temp` equals `(t-32)*5/9` degrees Celsius. -/
theorem validate_air_only (m : kvp) (t u : String)
    (ht : find m "air_temp" = some t) (hn : numeric t = true) (h80 : 80 ≤ atof t)
    (hu : find m "air_uom" = some u) (hF : front u = 'F')
    (honly : ∀ p ∈ m, p.1 = "air_temp" ∨ p.1 = "air_uom") :
    ∃ r, validate m = some r ∧ r.valid = false ∧
      r.input.air_temp = (atof t - 32) * 5 / 9 :=
  ⟨_, validate_air_only_response m t u ht hn h80 hu hF honly, rfl, rfl⟩

theorem validate_air_only_witness :
    (∃ r, validate [("air_temp", "90"), ("air_uom", "F")] = some r ∧ r.valid = false ∧
      r.input.air_temp = (atof "90" - 32) * 5 / 9) ∧
    (atof "90" - 32) * 5 / 9 = 290 / 9 :=
  ⟨validate_air_only [("air_temp", "90"), ("air_uom", "F")] "90" "F" (by rfl) (by decide!)
    (by decide!) (by rfl) (by rfl) (by decide), by decide!⟩

/-- C3 as stated fails: for `{air_temp: ""}` no response returned by `validate` carries the
message "No value provided for air_temp input parameter.". -/
theorem validate_empty_air_temp_message_not_kept :
    ¬ ∃ r, validate [("air_temp", "")] = some r ∧ r.valid = false ∧
      doc_get r.doc "message" =
        some (json.string "No value provided for air_temp input parameter.") ∧
      doc_get r.doc "actual" = some (json.string "") := by
  decide!

/-- C3, amended: for `{air_temp: ""}`, `validate_air_temp` writes the message
"No value provided for air_temp input parameter." with `actual` the empty string, and the
response returned by `validate` has `valid = false`, `actual` equal to the empty string, the
`expected` text of `validate_air_temp`, and as message the one written last, by the
relative-humidity range check of `validate_input_values`. -/
theorem validate_empty_air_temp :
    validate_air_temp [("air_temp", "")] initial_response = some
      { valid := false
        doc := [("actual", json.string ""),
          ("expected", json.string "a floating point value >80 deg Fahrenheit"),
          ("message", json.string "No value provided for air_temp input parameter."),
          ("status", json.string "error")]
        input := ⟨0, 0, 0⟩ } ∧
    validate [("air_temp", "")] = some
      { valid := false
        doc := [("actual", json.string ""),
          ("expected", json.string "a floating point value >80 deg Fahrenheit"),
          ("message",
            json.string "The valid input limits for relative humidity is greater than 40."),
          ("status", json.string "error")]
        input := ⟨0, 0, 0⟩ } := by
  decide!

/-- C4, at the input the claim names: `{air_temp: "90", air_uom: "F", dew_temp: "60",
dew_uom: "F"}` is rejected.  Both temperatures are stored in Celsius and pass their range
checks, but the stored `relative_humidity` is still `0` and fails the floor of 40. -/
theorem validate_dewpoint_path_rejected :
    validate [("air_temp", "90"), ("air_uom", "F"), ("dew_temp", "60"), ("dew_uom", "F")] =
      some
        { valid := false
          doc := [("message",
              json.string "The valid input limits for relative humidity is greater than 40."),
            ("status", json.string "error")]
          input := ⟨290 / 9, 140 / 9, 0⟩ } := by
  decide!

/-- C7, at the input the claim names: `{air_temp: "30", air_uom: "K",
relative_humidity: "50"}` is rejected (`valid = false`) while the `status` member of the
document is still "success"; the rejecting branch of `validate_air_temp_uom` wrote "error"
under the key `stats`. -/
theorem validate_unknown_air_uom_status :
    validate [("air_temp", "30"), ("air_uom", "K"), ("relative_humidity", "50")] =
      some
        { valid := false
          doc := [("actual", json.string "K"),
            ("expected", json.string "One of 'uom=C' or 'uom=F'."),
            ("message", json.string "Unknown unit of measure provided."),
            ("stats", json.string "error"),
            ("status", json.string "success")]
          input := ⟨30, 0, 50⟩ } := by
  decide!

/-- C6: for every parameter map whose only keys are `air_temp` (numeric string `t`),
`air_uom` with first character `F` or `f`, and `relative_humidity` (numeric string `h`), with
`(t-32)*5/9 >= 26` and `h >= 40`, `validate` returns `valid = true`, the document
`{status: "success"}` and the Input Record with `air_temp = (t-32)*5/9`, `dew_temp = 0` and
`relative_humidity = h`. -/
theorem validate_relative_humidity_path (m : kvp) (t u h : String)
    (ht : find m "air_temp" = some t) (hnt : numeric t = true)
    (hu : find m "air_uom" = some u) (hF : front u = 'F' ∨ front u = 'f')
    (hh : find m "relative_humidity" = some h) (hnh : numeric h = true)
    (honly : ∀ p ∈ m, p.1 = "air_temp" ∨ p.1 = "air_uom" ∨ p.1 = "relative_humidity")
    (h26 : 26 ≤ (atof t - 32) * 5 / 9) (h40 : 40 ≤ atof h) :
    validate m = some
      { valid := true
        doc := [("status", json.string "success")]
        input := ⟨(atof t - 32) * 5 / 9, 0, atof h⟩ } := by
  have hdew : find m "dew_temp" = none := by
    apply find_none_of_no_key
    intro p hp e
    have := honly p hp
    rw [e] at this
    exact absurd this (by decide)
  have hduom : find m "dew_uom" = none := by
    apply find_none_of_no_key
    intro p hp e
    have := honly p hp
    rw [e] at this
    exact absurd this (by decide)
  have hair : ¬ ((atof t - 32) * 5 / 9 < (26 : ℚ)) := not_lt.mpr h26
  have hdewr : ¬ ((0 : ℚ) < -243 ∨ (0 : ℚ) > (atof t - 32) * 5 / 9) := by
    rintro (h | h)
    · norm_num at h
    · linarith
  have hrhr : ¬ (atof h < (40 : ℚ)) := not_lt.mpr h40
  unfold validate
  rw [validate_air_temp_numeric m _ t ht hnt, Option.map_some',
    validate_air_temp_uom_F m _ u hu hF, validate_dewpoint_absent m _ hdew,
    validate_dewpoint_uom_absent m _ hduom, validate_relative_humidity_numeric m _ h hh hnh,
    validate_dew_rel_hum_no_dew m _ hdew]
  unfold validate_input_values
  simp only [initial_response, cvt_f_c, air_temp_floor_eq, hair, hdewr, hrhr, if_false]

theorem validate_relative_humidity_path_witness :
    validate [("air_temp", "90"), ("air_uom", "F"), ("relative_humidity", "50")] = some
      { valid := true
        doc := [("status", json.string "success")]
        input := ⟨(atof "90" - 32) * 5 / 9, 0, atof "50"⟩ } ∧
      (atof "90" - 32) * 5 / 9 = 290 / 9 ∧ atof "50" = 50 :=
  ⟨validate_relative_humidity_path
      [("air_temp", "90"), ("air_uom", "F"), ("relative_humidity", "50")] "90" "F" "50"
      (by rfl) (by decide!) (by rfl) (by decide) (by rfl) (by decide!) (by decide)
      (by decide!) (by decide!),
    by decide!, by decide!⟩


/-! ## The validity flag never returns to true -/

theorem validate_air_temp_keeps_false (m : kvp) (r r' : response_t) (h : r.valid = false)
    (hr : validate_air_temp m r = some r') : r'.valid = false := by
  unfold validate_air_temp at hr
  split at hr
  · split at hr
    · split at hr <;> (injection hr with e; subst e) <;> first | exact h | rfl
    · split at hr <;> (injection hr with e; subst e) <;> rfl
  · exact absurd hr (by simp)

theorem validate_air_temp_uom_keeps_false (m : kvp) (r : response_t) (h : r.valid = false) :
    (validate_air_temp_uom m r).valid = false := by
  unfold validate_air_temp_uom
  split
  · dsimp only
    split
    · exact h
    · split
      · exact h
      · rfl
  · exact h

theorem validate_dewpoint_keeps_false (m : kvp) (r : response_t) (h : r.valid = false) :
    (validate_dewpoint m r).valid = false := by
  unfold validate_dewpoint
  split
  · split
    · split
      · exact h
      · split <;> rfl
    · exact h
  · exact h

theorem validate_dewpoint_uom_keeps_false (m : kvp) (r : response_t) (h : r.valid = false) :
    (validate_dewpoint_uom m r).valid = false := by
  unfold validate_dewpoint_uom
  split
  · dsimp only
    split
    · exact h
    · split
      · exact h
      · rfl
  · exact h

theorem validate_relative_humidity_keeps_false (m : kvp) (r : response_t)
    (h : r.valid = false) : (validate_relative_humidity m r).valid = false := by
  unfold validate_relative_humidity
  split
  · split
    · split
      · exact h
      · split <;> rfl
    · exact h
  · exact h

theorem validate_input_values_valid_eq (m : kvp) (r : response_t) :
    (validate_input_values m r).valid =
      (r.valid && decide (26 ≤ r.input.air_temp) && decide (-243 ≤ r.input.dew_temp) &&
        decide (r.input.dew_temp ≤ r.input.air_temp) &&
        decide (40 ≤ r.input.relative_humidity)) := by
  unfold validate_input_values
  simp only [air_temp_floor_eq, reject_range]
  by_cases h1 : r.input.air_temp < 26 <;> by_cases h2 : r.input.dew_temp < -243 <;>
    by_cases h3 : r.input.dew_temp > r.input.air_temp <;>
    by_cases h4 : r.input.relative_humidity < 40 <;>
    simp [h1, h2, h3, h4, not_le.mpr, not_lt.mp]

theorem validate_input_values_keeps_false (m : kvp) (r : response_t) (h : r.valid = false) :
    (validate_input_values m r).valid = false := by
  rw [validate_input_values_valid_eq, h]
  rfl

theorem validate_dew_rel_hum_keeps_false (m : kvp) (r : response_t) (h : r.valid = false) :
    (validate_dew_rel_hum m r).valid = false := by
  unfold validate_dew_rel_hum
  split
  · split
    · split
      · split
        · rfl
        · exact h
      · exact h
    · exact h
  · exact h


/-- C8: `validate` starts from `valid = true`; each of the seven validators, given any
parameter map and an incoming response with `valid = false`, hands on a response that still
has `valid = false` (`validate_air_temp` whenever it yields a response, which it does for
every map that has the key `air_temp`); hence when `validate` returns `valid = true`, the
response was valid after every validator of the sequence. -/
theorem valid_monotone (m : kvp) (r : response_t) (h : r.valid = false) :
    initial_response.valid = true ∧
    (∀ r', validate_air_temp m r = some r' → r'.valid = false) ∧
    (∀ a, find m "air_temp" = some a → ∃ r', validate_air_temp m r = some r') ∧
    (validate_air_temp_uom m r).valid = false ∧
    (validate_dewpoint m r).valid = false ∧
    (validate_dewpoint_uom m r).valid = false ∧
    (validate_relative_humidity m r).valid = false ∧
    (validate_input_values m r).valid = false ∧
    (validate_dew_rel_hum m r).valid = false ∧
    (∀ r', validate m = some r' → r'.valid = true →
      ∃ r1, validate_air_temp m initial_response = some r1 ∧ r1.valid = true ∧
        (validate_air_temp_uom m r1).valid = true ∧
        (validate_dewpoint m (validate_air_temp_uom m r1)).valid = true ∧
        (validate_dewpoint_uom m (validate_dewpoint m (validate_air_temp_uom m r1))).valid
          = true ∧
        (validate_relative_humidity m (validate_dewpoint_uom m (validate_dewpoint m
          (validate_air_temp_uom m r1)))).valid = true ∧
        (validate_input_values m (validate_relative_humidity m (validate_dewpoint_uom m
          (validate_dewpoint m (validate_air_temp_uom m r1))))).valid = true ∧
        r' = validate_dew_rel_hum m (validate_input_values m (validate_relative_humidity m
          (validate_dewpoint_uom m (validate_dewpoint m (validate_air_temp_uom m r1)))))) := by
  refine ⟨rfl, fun r' hr => validate_air_temp_keeps_false m r r' h hr,
    fun a ha => validate_air_temp_present m r a ha,
    validate_air_temp_uom_keeps_false m r h, validate_dewpoint_keeps_false m r h,
    validate_dewpoint_uom_keeps_false m r h, validate_relative_humidity_keeps_false m r h,
    validate_input_values_keeps_false m r h, validate_dew_rel_hum_keeps_false m r h, ?_⟩
  intro r' hv hvalid
  unfold validate at hv
  cases h1 : validate_air_temp m initial_response with
  | none => rw [h1] at hv; exact absurd hv (by simp)
  | some r1 =>
    rw [h1, Option.map_some'] at hv
    injection hv with hv
    have k6 : (validate_input_values m (validate_relative_humidity m (validate_dewpoint_uom m
        (validate_dewpoint m (validate_air_temp_uom m r1))))).valid = true := by
      by_contra hc
      have := validate_dew_rel_hum_keeps_false m _ (Bool.eq_false_iff.mpr hc)
      rw [hv, hvalid] at this
      exact absurd this (by decide)
    have k5 : (validate_relative_humidity m (validate_dewpoint_uom m
        (validate_dewpoint m (validate_air_temp_uom m r1)))).valid = true := by
      by_contra hc
      have := validate_input_values_keeps_false m _ (Bool.eq_false_iff.mpr hc)
      rw [k6] at this
      exact absurd this (by decide)
    have k4 : (validate_dewpoint_uom m
        (validate_dewpoint m (validate_air_temp_uom m r1))).valid = true := by
      by_contra hc
      have := validate_relative_humidity_keeps_false m _ (Bool.eq_false_iff.mpr hc)
      rw [k5] at this
      exact absurd this (by decide)
    have k3 : (validate_dewpoint m (validate_air_temp_uom m r1)).valid = true := by
      by_contra hc
      have := validate_dewpoint_uom_keeps_false m _ (Bool.eq_false_iff.mpr hc)
      rw [k4] at this
      exact absurd this (by decide)
    have k2 : (validate_air_temp_uom m r1).valid = true := by
      by_contra hc
      have := validate_dewpoint_keeps_false m _ (Bool.eq_false_iff.mpr hc)
      rw [k3] at this
      exact absurd this (by decide)
    have k1 : r1.valid = true := by
      by_contra hc
      have := validate_air_temp_uom_keeps_false m _ (Bool.eq_false_iff.mpr hc)
      rw [k2] at this
      exact absurd this (by decide)
    exact ⟨r1, rfl, k1, k2, k3, k4, k5, k6, hv.symm⟩

theorem valid_monotone_witness :
    (⟨false, [("status", json.string "success")], ⟨30, 0, 50⟩⟩ : response_t).valid = false ∧
    (validate_input_values [("air_temp", "30"), ("relative_humidity", "50")]
      ⟨false, [("status", json.string "success")], ⟨30, 0, 50⟩⟩).valid = false ∧
    (validate_dew_rel_hum [("air_temp", "30"), ("relative_humidity", "50")]
      ⟨false, [("status", json.string "success")], ⟨30, 0, 50⟩⟩).valid = false :=
  ⟨rfl,
    (valid_monotone [("air_temp", "30"), ("relative_humidity", "50")]
      ⟨false, [("status", json.string "success")], ⟨30, 0, 50⟩⟩ rfl).2.2.2.2.2.2.2.1,
    (valid_monotone [("air_temp", "30"), ("relative_humidity", "50")]
      ⟨false, [("status", json.string "success")], ⟨30, 0, 50⟩⟩ rfl).2.2.2.2.2.2.2.2.1⟩

/-- C9: for every incoming response `r`, the `valid` flag after `validate_input_values` is
`r.valid AND air_temp >= 26 AND dew_temp >= -243 AND dew_temp <= air_temp AND
relative_humidity >= 40`; the air-temperature floor is the integer quotient `80/3 = 26`, so
that an air temperature of `26.5` (below `80/3` as a fraction) passes the check, and
`{air_temp: "20", air_uom: "C"}` is rejected, its air temperature `20` being below the
floor. -/
theorem validate_input_values_conjunction (m : kvp) (r : response_t) :
    (validate_input_values m r).valid =
      (r.valid && decide (26 ≤ r.input.air_temp) && decide (-243 ≤ r.input.dew_temp) &&
        decide (r.input.dew_temp ≤ r.input.air_temp) &&
        decide (40 ≤ r.input.relative_humidity)) ∧
    ((80 : Int) / 3 = 26 ∧ air_temp_floor = 26) ∧
    ((53 / 2 : ℚ) < 80 / 3 ∧
      (validate_input_values m ⟨true, r.doc, ⟨53 / 2, 0, 40⟩⟩).valid = true) ∧
    (validate [("air_temp", "20"), ("air_uom", "C")]).map (fun x => (x.valid, x.input)) =
      some (false, ⟨20, 0, 0⟩) ∧
    (validate_input_values m ⟨true, r.doc, ⟨20, 0, 40⟩⟩).valid = false := by
  refine ⟨validate_input_values_valid_eq m r, ⟨by decide, air_temp_floor_eq⟩,
    ⟨by norm_num, ?_⟩, by decide!, ?_⟩
  · rw [validate_input_values_valid_eq]
    dsimp only
    decide!
  · rw [validate_input_values_valid_eq]
    dsimp only
    decide!

/-- C10: `validate_air_temp_uom` looks at the first character of `air_uom` only, whatever its
case.  When `air_uom` is absent the response is unchanged.  When it is present: if its first
character is `F` or `f`, the stored `air_temp` becomes `(air_temp-32)*5/9` and nothing else
changes; if it is `C` or `c`, the response is unchanged; in every other case, the empty string
included, `valid` becomes false, the message is "Unknown unit of measure provided.", `actual`
is the raw `air_uom` value and the Input Record is unchanged. -/
theorem validate_air_temp_uom_cases (m : kvp) (r : response_t) :
    (find m "air_uom" = none → validate_air_temp_uom m r = r) ∧
    (∀ u, find m "air_uom" = some u →
      ((front u = 'F' ∨ front u = 'f') →
        validate_air_temp_uom m r =
          { valid := r.valid
            doc := r.doc
            input := ⟨(r.input.air_temp - 32) * 5 / 9, r.input.dew_temp,
              r.input.relative_humidity⟩ }) ∧
      ((front u = 'C' ∨ front u = 'c') → validate_air_temp_uom m r = r) ∧
      ((empty u = true ∨
          (front u ≠ 'F' ∧ front u ≠ 'f' ∧ front u ≠ 'C' ∧ front u ≠ 'c')) →
        (validate_air_temp_uom m r).valid = false ∧
        doc_get (validate_air_temp_uom m r).doc "message" =
          some (json.string "Unknown unit of measure provided.") ∧
        doc_get (validate_air_temp_uom m r).doc "actual" = some (json.string u) ∧
        (validate_air_temp_uom m r).input = r.input)) := by
  refine ⟨fun h => by unfold validate_air_temp_uom; rw [h], fun u hu => ⟨?_, ?_, ?_⟩⟩
  · intro hF
    rw [validate_air_temp_uom_F m r u hu hF]
    rfl
  · intro hC
    have hnF : ¬ (front u = 'F' ∨ front u = 'f') := by
      rintro (h | h) <;> rcases hC with h' | h' <;> rw [h] at h' <;> exact absurd h' (by decide)
    unfold validate_air_temp_uom
    simp [hu, (uom_eq_C (front u)).mpr hC, mt (uom_eq_F (front u)).mp hnF]
  · intro hO
    have hO' : front u ≠ 'F' ∧ front u ≠ 'f' ∧ front u ≠ 'C' ∧ front u ≠ 'c' := by
      rcases hO with he | ho
      · have hd : u.data = [] := by
          unfold empty at he
          exact List.isEmpty_iff.mp he
        have : front u = Char.ofNat 0 := by
          unfold front
          rw [hd]
        rw [this]
        decide
      · exact ho
    have hnF : ¬ (front u = 'F' ∨ front u = 'f') := fun h => h.elim hO'.1 hO'.2.1
    have hnC : ¬ (front u = 'C' ∨ front u = 'c') := fun h => h.elim hO'.2.2.1 hO'.2.2.2
    have e : validate_air_temp_uom m r = reject r "stats" "Unknown unit of measure provided."
        "One of 'uom=C' or 'uom=F'." (json.string u) := by
      unfold validate_air_temp_uom
      simp [hu, mt (uom_eq_C (front u)).mp hnC, mt (uom_eq_F (front u)).mp hnF]
    rw [e]
    exact ⟨rfl, reject_message _ _ _ _ _, reject_actual _ _ _ _ _, rfl⟩

theorem validate_air_temp_uom_cases_witness :
    validate_air_temp_uom [("air_uom", "fahrenheit")]
        ⟨true, [("status", json.string "success")], ⟨90, 0, 0⟩⟩ =
      ⟨true, [("status", json.string "success")], ⟨(90 - 32) * 5 / 9, 0, 0⟩⟩ ∧
    validate_air_temp_uom [("air_uom", "Celsius")]
        ⟨true, [("status", json.string "success")], ⟨90, 0, 0⟩⟩ =
      ⟨true, [("status", json.string "success")], ⟨90, 0, 0⟩⟩ ∧
    (validate_air_temp_uom [("air_uom", "")]
        ⟨true, [("status", json.string "success")], ⟨90, 0, 0⟩⟩).valid = false ∧
    (validate_air_temp_uom [("air_uom", "K")]
        ⟨true, [("status", json.string "success")], ⟨90, 0, 0⟩⟩).valid = false ∧
    validate_air_temp_uom [] ⟨true, [("status", json.string "success")], ⟨90, 0, 0⟩⟩ =
      ⟨true, [("status", json.string "success")], ⟨90, 0, 0⟩⟩ :=
  ⟨((validate_air_temp_uom_cases [("air_uom", "fahrenheit")] _).2 "fahrenheit" rfl).1
      (Or.inr rfl),
    ((validate_air_temp_uom_cases [("air_uom", "Celsius")] _).2 "Celsius" rfl).2.1
      (Or.inl rfl),
    (((validate_air_temp_uom_cases [("air_uom", "")] _).2 "" rfl).2.2 (Or.inl rfl)).1,
    (((validate_air_temp_uom_cases [("air_uom", "K")] _).2 "K" rfl).2.2
      (Or.inr (by decide))).1,
    (validate_air_temp_uom_cases [] _).1 rfl⟩


/-! ## Present but empty optional values -/

theorem validate_dewpoint_of_empty (m : kvp) (r : response_t) (d : String)
    (hd : find m "dew_temp" = some d) (he : empty d = true) : validate_dewpoint m r = r := by
  unfold validate_dewpoint
  simp [hd, he]

theorem validate_relative_humidity_of_empty (m : kvp) (r : response_t) (h : String)
    (hh : find m "relative_humidity" = some h) (he : empty h = true) :
    validate_relative_humidity m r = r := by
  unfold validate_relative_humidity
  simp [hh, he]

/-- C11, what the code does instead: for every parameter map in which `dew_temp` is present
with an empty value, `validate_dewpoint` returns the incoming response unchanged; it neither
sets `valid = false` nor writes a message.  The branch that holds the message
"No value provided for dew_temp input parameter." stands inside the branch for a non-empty
value and is never taken. -/
theorem validate_dewpoint_empty_unchanged (m : kvp) (r : response_t) (d : String)
    (hd : find m "dew_temp" = some d) (he : empty d = true) :
    validate_dewpoint m r = r :=
  validate_dewpoint_of_empty m r d hd he

theorem validate_dewpoint_empty_unchanged_witness :
    find [("dew_temp", "")] "dew_temp" = some "" ∧ empty "" = true ∧
      validate_dewpoint [("dew_temp", "")] initial_response = initial_response :=
  ⟨rfl, rfl, validate_dewpoint_empty_unchanged [("dew_temp", "")] initial_response ""
    rfl rfl⟩

/-- C14: over exact rational arithmetic the two unit conversions are inverse to each other:
`f_to_c(c_to_f(x)) = x` and `c_to_f(f_to_c(x)) = x` for every `x`. -/
theorem cvt_round_trip (x : ℚ) : cvt_f_c (cvt_c_f x) = x ∧ cvt_c_f (cvt_f_c x) = x := by
  unfold cvt_f_c cvt_c_f
  constructor <;> ring

/-- C13, what the code does instead: `calculate` returns the response it copied, with no
member written (so no `data` member for a response that has just passed validation, here the
one for `{air_temp: "90", air_uom: "F", relative_humidity: "50"}`); and `cvt_dew_rh`, the
function defined inside it, leaves the response unchanged whenever `relative_humidity` was
supplied non-empty, because it returns before the statements that write the output pair. -/
theorem calculate_writes_nothing (φ : physics) (response r : response_t) :
    calculate response r = response ∧
    (∀ r0, validate [("air_temp", "90"), ("air_uom", "F"), ("relative_humidity", "50")]
        = some r0 → r0.valid = true ∧ doc_get (calculate r0 r0).doc "data" = none) ∧
    (∀ m h, find m "relative_humidity" = some h → empty h = false →
      cvt_dew_rh φ m r = r) := by
  refine ⟨rfl, ?_, ?_⟩
  · intro r0 h0
    have e : validate [("air_temp", "90"), ("air_uom", "F"), ("relative_humidity", "50")]
        = some ⟨true, [("status", json.string "success")], ⟨290 / 9, 0, 50⟩⟩ := by decide!
    rw [e] at h0
    injection h0 with h0
    subst h0
    exact ⟨rfl, rfl⟩
  · intro m h hh he
    unfold cvt_dew_rh
    simp [hh, he]

theorem calculate_writes_nothing_witness :
    calculate ⟨true, [("status", json.string "success")], ⟨290 / 9, 0, 50⟩⟩
        ⟨true, [("status", json.string "success")], ⟨290 / 9, 0, 50⟩⟩ =
      ⟨true, [("status", json.string "success")], ⟨290 / 9, 0, 50⟩⟩ ∧
    cvt_dew_rh ⟨fun t => t, fun a b => a / b, fun t h => t + h⟩
        [("air_temp", "90"), ("air_uom", "F"), ("relative_humidity", "50")]
        ⟨true, [("status", json.string "success")], ⟨290 / 9, 0, 50⟩⟩ =
      ⟨true, [("status", json.string "success")], ⟨290 / 9, 0, 50⟩⟩ :=
  ⟨(calculate_writes_nothing ⟨fun t => t, fun a b => a / b, fun t h => t + h⟩ _ _).1,
    (calculate_writes_nothing ⟨fun t => t, fun a b => a / b, fun t h => t + h⟩
      ⟨true, [("status", json.string "success")], ⟨290 / 9, 0, 50⟩⟩
      ⟨true, [("status", json.string "success")], ⟨290 / 9, 0, 50⟩⟩).2.2
      [("air_temp", "90"), ("air_uom", "F"), ("relative_humidity", "50")] "50" rfl rfl⟩


/-! ## The range checks -/

theorem reject_range_message (r : response_t) (msg : String) :
    doc_get (reject_range r msg).doc "message" = some (json.string msg) := by
  unfold reject_range
  exact doc_get_set_same _ _ _

theorem reject_range_other (r : response_t) (msg k : String) (h1 : k ≠ "status")
    (h2 : k ≠ "message") : doc_get (reject_range r msg).doc k = doc_get r.doc k := by
  unfold reject_range
  dsimp only
  rw [doc_get_set_other _ _ _ _ h2, doc_get_set_other _ _ _ _ h1]

theorem reject_range_input (r : response_t) (msg : String) :
    (reject_range r msg).input = r.input := rfl

theorem validate_input_values_input (m : kvp) (r : response_t) :
    (validate_input_values m r).input = r.input := by
  unfold validate_input_values
  dsimp only
  split_ifs <;> rfl

theorem validate_input_values_other (m : kvp) (r : response_t) (k : String)
    (h1 : k ≠ "status") (h2 : k ≠ "message") :
    doc_get (validate_input_values m r).doc k = doc_get r.doc k := by
  unfold validate_input_values
  dsimp only
  split_ifs <;> simp only [reject_range_other _ _ _ h1 h2]

/-- C17: in `validate_input_values` the last failing check decides the message.  For every
incoming response: if `relative_humidity < 40` the outgoing message is the relative-humidity
message; otherwise, if `dew_temp < -243` or `dew_temp > air_temp`, it is the dewpoint
message; otherwise, if `air_temp < 26`, it is the air-temperature message; and if no check
fails the whole response is the incoming one.  The document holds one message, never a list
of violations. -/
theorem validate_input_values_last_wins (m : kvp) (r : response_t) :
    (r.input.relative_humidity < 40 →
      doc_get (validate_input_values m r).doc "message" = some (json.string
        "The valid input limits for relative humidity is greater than 40.")) ∧
    (¬ r.input.relative_humidity < 40 →
      (r.input.dew_temp < -243 ∨ r.input.dew_temp > r.input.air_temp) →
      doc_get (validate_input_values m r).doc "message" = some (json.string
        ("The valid input limits for dewpoint temperature are between " ++
          "-243C and the input air temperature."))) ∧
    (¬ r.input.relative_humidity < 40 →
      ¬ (r.input.dew_temp < -243 ∨ r.input.dew_temp > r.input.air_temp) →
      r.input.air_temp < 26 →
      doc_get (validate_input_values m r).doc "message" = some (json.string
        ("The valid input limits for air temperature is greater than " ++
          "80 deg Fahrenheit or 26.66667 deg Celsius."))) ∧
    (¬ r.input.relative_humidity < 40 →
      ¬ (r.input.dew_temp < -243 ∨ r.input.dew_temp > r.input.air_temp) →
      ¬ r.input.air_temp < 26 →
      validate_input_values m r = r) := by
  unfold validate_input_values
  simp only [air_temp_floor_eq]
  refine ⟨fun h3 => ?_, fun h3 h2 => ?_, fun h3 h2 h1 => ?_, fun h3 h2 h1 => ?_⟩
  · by_cases h1 : r.input.air_temp < 26 <;>
      by_cases h2 : (r.input.dew_temp < -243 ∨ r.input.dew_temp > r.input.air_temp) <;>
      simp only [reject_range_input, h1, h2, h3, if_true, if_false, reject_range_message]
  · by_cases h1 : r.input.air_temp < 26 <;>
      simp only [reject_range_input, h1, h2, h3, if_true, if_false, reject_range_message]
  · simp only [reject_range_input, h1, h2, h3, if_true, if_false, reject_range_message]
  · simp only [h1, h2, h3, if_false]

theorem validate_input_values_last_wins_witness :
    doc_get (validate_input_values [] ⟨true, [("status", json.string "success")],
        ⟨20, 30, 10⟩⟩).doc "message" = some (json.string
      "The valid input limits for relative humidity is greater than 40.") ∧
    doc_get (validate_input_values [] ⟨true, [("status", json.string "success")],
        ⟨20, 30, 50⟩⟩).doc "message" = some (json.string
      ("The valid input limits for dewpoint temperature are between " ++
        "-243C and the input air temperature.")) ∧
    doc_get (validate_input_values [] ⟨true, [("status", json.string "success")],
        ⟨20, 10, 50⟩⟩).doc "message" = some (json.string
      ("The valid input limits for air temperature is greater than " ++
        "80 deg Fahrenheit or 26.66667 deg Celsius.")) ∧
    validate_input_values [] ⟨true, [("status", json.string "success")], ⟨30, 10, 50⟩⟩ =
      ⟨true, [("status", json.string "success")], ⟨30, 10, 50⟩⟩ :=
  ⟨(validate_input_values_last_wins [] _).1 (by norm_num),
    (validate_input_values_last_wins [] _).2.1 (by norm_num) (by norm_num),
    (validate_input_values_last_wins [] _).2.2.1 (by norm_num) (by norm_num) (by norm_num),
    (validate_input_values_last_wins [] _).2.2.2 (by norm_num) (by norm_num) (by norm_num)⟩

/-- C19: `validate_input_values` changes nothing but `valid`, `status` and `message`: for
every incoming response the Input Record is the same after the call as before it, and so is
every member of the document other than `status` and `message`, `expected` and `actual` in
particular. -/
theorem validate_input_values_frame (m : kvp) (r : response_t) :
    (validate_input_values m r).input = r.input ∧
    doc_get (validate_input_values m r).doc "expected" = doc_get r.doc "expected" ∧
    doc_get (validate_input_values m r).doc "actual" = doc_get r.doc "actual" ∧
    ∀ k, k ≠ "status" → k ≠ "message" →
      doc_get (validate_input_values m r).doc k = doc_get r.doc k :=
  ⟨validate_input_values_input m r,
    validate_input_values_other m r "expected" (by decide) (by decide),
    validate_input_values_other m r "actual" (by decide) (by decide),
    fun k h1 h2 => validate_input_values_other m r k h1 h2⟩

theorem validate_input_values_frame_witness :
    doc_get (validate_input_values [] ⟨false, [("actual", json.string ""),
        ("expected", json.string "a floating point value >80 deg Fahrenheit"),
        ("message", json.string "No value provided for air_temp input parameter."),
        ("status", json.string "error")], ⟨0, 0, 0⟩⟩).doc "expected" =
      some (json.string "a floating point value >80 deg Fahrenheit") :=
  (validate_input_values_frame [] ⟨false, [("actual", json.string ""),
    ("expected", json.string "a floating point value >80 deg Fahrenheit"),
    ("message", json.string "No value provided for air_temp input parameter."),
    ("status", json.string "error")], ⟨0, 0, 0⟩⟩).2.1


/-! ## Each validator reads its own keys only -/

theorem validate_air_temp_congr (m m' : kvp) (r : response_t)
    (h : find m "air_temp" = find m' "air_temp") :
    validate_air_temp m r = validate_air_temp m' r := by
  unfold validate_air_temp
  rw [h]

theorem validate_air_temp_uom_congr (m m' : kvp) (r : response_t)
    (h : find m "air_uom" = find m' "air_uom") :
    validate_air_temp_uom m r = validate_air_temp_uom m' r := by
  unfold validate_air_temp_uom
  rw [h]

theorem validate_dewpoint_congr (m m' : kvp) (r : response_t)
    (h : find m "dew_temp" = find m' "dew_temp") :
    validate_dewpoint m r = validate_dewpoint m' r := by
  unfold validate_dewpoint
  rw [h]

theorem validate_dewpoint_uom_congr (m m' : kvp) (r : response_t)
    (h : find m "dew_uom" = find m' "dew_uom") :
    validate_dewpoint_uom m r = validate_dewpoint_uom m' r := by
  unfold validate_dewpoint_uom
  rw [h]

theorem validate_relative_humidity_congr (m m' : kvp) (r : response_t)
    (h : find m "relative_humidity" = find m' "relative_humidity") :
    validate_relative_humidity m r = validate_relative_humidity m' r := by
  unfold validate_relative_humidity
  rw [h]

theorem validate_input_values_congr (m m' : kvp) (r : response_t) :
    validate_input_values m r = validate_input_values m' r := rfl

theorem validate_dew_rel_hum_congr (m m' : kvp) (r : response_t)
    (h : find m "relative_humidity" = find m' "relative_humidity")
    (h' : find m "dew_temp" = find m' "dew_temp") :
    validate_dew_rel_hum m r = validate_dew_rel_hum m' r := by
  unfold validate_dew_rel_hum
  rw [h, h']

/-- C15: unknown keys are ignored.  Two parameter maps that agree on the five recognised keys
`air_temp`, `air_uom`, `dew_temp`, `dew_uom` and `relative_humidity` (same presence, same
value) get the same result from `validate`: the same `valid` flag, document and Input Record,
or no defined result for both. -/
theorem validate_ignores_unknown_keys (m m' : kvp)
    (h1 : find m "air_temp" = find m' "air_temp")
    (h2 : find m "air_uom" = find m' "air_uom")
    (h3 : find m "dew_temp" = find m' "dew_temp")
    (h4 : find m "dew_uom" = find m' "dew_uom")
    (h5 : find m "relative_humidity" = find m' "relative_humidity") :
    validate m = validate m' := by
  unfold validate
  rw [validate_air_temp_congr m m' _ h1]
  congr 1
  funext response
  rw [validate_air_temp_uom_congr m m' _ h2, validate_dewpoint_congr m m' _ h3,
    validate_dewpoint_uom_congr m m' _ h4, validate_relative_humidity_congr m m' _ h5,
    validate_input_values_congr m m', validate_dew_rel_hum_congr m m' _ h5 h3]

theorem validate_ignores_unknown_keys_witness :
    validate [("units", "metric"), ("air_temp", "90"), ("air_uom", "F"),
        ("relative_humidity", "50"), ("callback", "f")] =
      validate [("air_temp", "90"), ("air_uom", "F"), ("relative_humidity", "50")] ∧
    validate [("air_temp", "90"), ("air_uom", "F"), ("relative_humidity", "50")] =
      some ⟨true, [("status", json.string "success")], ⟨290 / 9, 0, 50⟩⟩ :=
  ⟨validate_ignores_unknown_keys _ _ rfl rfl rfl rfl rfl, by decide!⟩


/-! ## Accepting steps, continued -/

theorem not_F_of_C (c : Char) (hC : c = 'C' ∨ c = 'c') : ¬ (c = 'F' ∨ c = 'f') := by
  rintro (h | h) <;> rcases hC with h' | h' <;> rw [h] at h' <;> exact absurd h' (by decide)

theorem validate_air_temp_uom_C (m : kvp) (r : response_t) (u : String)
    (hu : find m "air_uom" = some u) (hC : front u = 'C' ∨ front u = 'c') :
    validate_air_temp_uom m r = r := by
  unfold validate_air_temp_uom
  simp [hu, (uom_eq_C (front u)).mpr hC, mt (uom_eq_F (front u)).mp (not_F_of_C _ hC)]

theorem validate_air_temp_uom_absent (m : kvp) (r : response_t)
    (h : find m "air_uom" = none) : validate_air_temp_uom m r = r := by
  unfold validate_air_temp_uom
  rw [h]

theorem validate_dewpoint_numeric (m : kvp) (r : response_t) (d : String)
    (hd : find m "dew_temp" = some d) (hn : numeric d = true) :
    validate_dewpoint m r = { r with input := { r.input with dew_temp := atof d } } := by
  unfold validate_dewpoint
  simp [hd, hn, numeric_not_empty d hn]

theorem validate_dewpoint_uom_C (m : kvp) (r : response_t) (u : String)
    (hu : find m "dew_uom" = some u) (hC : front u = 'C' ∨ front u = 'c') :
    validate_dewpoint_uom m r = r := by
  unfold validate_dewpoint_uom
  simp [hu, (uom_eq_C (front u)).mpr hC]

theorem validate_dewpoint_uom_F (m : kvp) (r : response_t) (u : String)
    (hu : find m "dew_uom" = some u) (hF : front u = 'F' ∨ front u = 'f') :
    validate_dewpoint_uom m r =
      { r with input := { r.input with dew_temp := cvt_f_c r.input.dew_temp } } := by
  have hnC : ¬ (front u = 'C' ∨ front u = 'c') := fun hC => not_F_of_C _ hC hF
  unfold validate_dewpoint_uom
  simp [hu, (uom_eq_F (front u)).mpr hF, mt (uom_eq_C (front u)).mp hnC]

/-- C16: a field validator that finds no problem leaves the document and the `valid` flag
as they were and changes at most its own field of the Input Record.  For every incoming
response and parameter map: `validate_air_temp` when `air_temp` is numeric;
`validate_air_temp_uom` when `air_uom` is absent or starts with `F`, `f`, `C` or `c`;
`validate_dewpoint` when `dew_temp` is absent or numeric; `validate_dewpoint_uom` when
`dew_uom` is absent or starts with `F`, `f`, `C` or `c`; `validate_relative_humidity` when
`relative_humidity` is absent or numeric. -/
theorem field_validators_frame (m : kvp) (r : response_t) :
    (∀ t, find m "air_temp" = some t → numeric t = true →
      ∃ r', validate_air_temp m r = some r' ∧ r'.valid = r.valid ∧ r'.doc = r.doc ∧
        r'.input.dew_temp = r.input.dew_temp ∧
        r'.input.relative_humidity = r.input.relative_humidity) ∧
    ((find m "air_uom" = none ∨ ∃ u, find m "air_uom" = some u ∧
        (front u = 'F' ∨ front u = 'f' ∨ front u = 'C' ∨ front u = 'c')) →
      (validate_air_temp_uom m r).valid = r.valid ∧
        (validate_air_temp_uom m r).doc = r.doc ∧
        (validate_air_temp_uom m r).input.dew_temp = r.input.dew_temp ∧
        (validate_air_temp_uom m r).input.relative_humidity = r.input.relative_humidity) ∧
    ((find m "dew_temp" = none ∨ ∃ d, find m "dew_temp" = some d ∧ numeric d = true) →
      (validate_dewpoint m r).valid = r.valid ∧
        (validate_dewpoint m r).doc = r.doc ∧
        (validate_dewpoint m r).input.air_temp = r.input.air_temp ∧
        (validate_dewpoint m r).input.relative_humidity = r.input.relative_humidity) ∧
    ((find m "dew_uom" = none ∨ ∃ u, find m "dew_uom" = some u ∧
        (front u = 'F' ∨ front u = 'f' ∨ front u = 'C' ∨ front u = 'c')) →
      (validate_dewpoint_uom m r).valid = r.valid ∧
        (validate_dewpoint_uom m r).doc = r.doc ∧
        (validate_dewpoint_uom m r).input.air_temp = r.input.air_temp ∧
        (validate_dewpoint_uom m r).input.relative_humidity = r.input.relative_humidity) ∧
    ((find m "relative_humidity" = none ∨
        ∃ h, find m "relative_humidity" = some h ∧ numeric h = true) →
      (validate_relative_humidity m r).valid = r.valid ∧
        (validate_relative_humidity m r).doc = r.doc ∧
        (validate_relative_humidity m r).input.air_temp = r.input.air_temp ∧
        (validate_relative_humidity m r).input.dew_temp = r.input.dew_temp) := by
  refine ⟨fun t ht hn => ⟨_, validate_air_temp_numeric m r t ht hn, rfl, rfl, rfl, rfl⟩,
    ?_, ?_, ?_, ?_⟩
  · rintro (h | ⟨u, hu, hF | hF | hC | hC⟩)
    · rw [validate_air_temp_uom_absent m r h]
      exact ⟨rfl, rfl, rfl, rfl⟩
    · rw [validate_air_temp_uom_F m r u hu (Or.inl hF)]
      exact ⟨rfl, rfl, rfl, rfl⟩
    · rw [validate_air_temp_uom_F m r u hu (Or.inr hF)]
      exact ⟨rfl, rfl, rfl, rfl⟩
    · rw [validate_air_temp_uom_C m r u hu (Or.inl hC)]
      exact ⟨rfl, rfl, rfl, rfl⟩
    · rw [validate_air_temp_uom_C m r u hu (Or.inr hC)]
      exact ⟨rfl, rfl, rfl, rfl⟩
  · rintro (h | ⟨d, hd, hn⟩)
    · rw [validate_dewpoint_absent m r h]
      exact ⟨rfl, rfl, rfl, rfl⟩
    · rw [validate_dewpoint_numeric m r d hd hn]
      exact ⟨rfl, rfl, rfl, rfl⟩
  · rintro (h | ⟨u, hu, hF | hF | hC | hC⟩)
    · rw [validate_dewpoint_uom_absent m r h]
      exact ⟨rfl, rfl, rfl, rfl⟩
    · rw [validate_dewpoint_uom_F m r u hu (Or.inl hF)]
      exact ⟨rfl, rfl, rfl, rfl⟩
    · rw [validate_dewpoint_uom_F m r u hu (Or.inr hF)]
      exact ⟨rfl, rfl, rfl, rfl⟩
    · rw [validate_dewpoint_uom_C m r u hu (Or.inl hC)]
      exact ⟨rfl, rfl, rfl, rfl⟩
    · rw [validate_dewpoint_uom_C m r u hu (Or.inr hC)]
      exact ⟨rfl, rfl, rfl, rfl⟩
  · rintro (h | ⟨h, hh, hn⟩)
    · rw [validate_relative_humidity_absent m r h]
      exact ⟨rfl, rfl, rfl, rfl⟩
    · rw [validate_relative_humidity_numeric m r h hh hn]
      exact ⟨rfl, rfl, rfl, rfl⟩

theorem field_validators_frame_witness :
    (∃ r', validate_air_temp [("air_temp", "90"), ("dew_uom", "f")]
        ⟨false, [("status", json.string "error")], ⟨1, 2, 3⟩⟩ = some r' ∧
      r'.valid = false ∧ r'.doc = [("status", json.string "error")] ∧
      r'.input.dew_temp = 2 ∧ r'.input.relative_humidity = 3) ∧
    ((validate_dewpoint_uom [("air_temp", "90"), ("dew_uom", "f")]
        ⟨false, [("status", json.string "error")], ⟨1, 2, 3⟩⟩).valid = false ∧
      (validate_dewpoint_uom [("air_temp", "90"), ("dew_uom", "f")]
        ⟨false, [("status", json.string "error")], ⟨1, 2, 3⟩⟩).doc =
          [("status", json.string "error")] ∧
      (validate_dewpoint_uom [("air_temp", "90"), ("dew_uom", "f")]
        ⟨false, [("status", json.string "error")], ⟨1, 2, 3⟩⟩).input.air_temp = 1 ∧
      (validate_dewpoint_uom [("air_temp", "90"), ("dew_uom", "f")]
        ⟨false, [("status", json.string "error")], ⟨1, 2, 3⟩⟩).input.relative_humidity
          = 3) :=
  ⟨(field_validators_frame [("air_temp", "90"), ("dew_uom", "f")]
      ⟨false, [("status", json.string "error")], ⟨1, 2, 3⟩⟩).1 "90" rfl (by decide!),
    (field_validators_frame [("air_temp", "90"), ("dew_uom", "f")]
      ⟨false, [("status", json.string "error")], ⟨1, 2, 3⟩⟩).2.2.2.1
      (Or.inr ⟨"f", rfl, Or.inr (Or.inl rfl)⟩)⟩


/-! ## Which validators touch the stored relative humidity -/

theorem validate_air_temp_rh (m : kvp) (r r' : response_t)
    (hr : validate_air_temp m r = some r') :
    r'.input.relative_humidity = r.input.relative_humidity := by
  unfold validate_air_temp at hr
  split at hr
  · split at hr
    · split at hr <;> (injection hr with e; subst e) <;> rfl
    · split at hr <;> (injection hr with e; subst e) <;> rfl
  · exact absurd hr (by simp)

theorem validate_air_temp_uom_rh (m : kvp) (r : response_t) :
    (validate_air_temp_uom m r).input.relative_humidity = r.input.relative_humidity := by
  unfold validate_air_temp_uom
  split
  · dsimp only
    split
    · rfl
    · split <;> rfl
  · rfl

theorem validate_dewpoint_rh (m : kvp) (r : response_t) :
    (validate_dewpoint m r).input.relative_humidity = r.input.relative_humidity := by
  unfold validate_dewpoint
  split
  · split
    · split
      · rfl
      · split <;> rfl
    · rfl
  · rfl

theorem validate_dewpoint_uom_rh (m : kvp) (r : response_t) :
    (validate_dewpoint_uom m r).input.relative_humidity = r.input.relative_humidity := by
  unfold validate_dewpoint_uom
  split
  · dsimp only
    split
    · rfl
    · split <;> rfl
  · rfl

theorem validate_relative_humidity_not_numeric (m : kvp) (r : response_t) (h : String)
    (hh : find m "relative_humidity" = some h) (he : empty h = false)
    (hn : numeric h = false) : (validate_relative_humidity m r).valid = false := by
  unfold validate_relative_humidity
  simp [hh, he, hn, reject]

/-- C18: for every parameter map that contains `air_temp`, `validate` returns a response,
and if that response has `valid = true` then `relative_humidity` is present, non-empty,
numeric and at least 40, and `dew_temp` is absent or empty.  So no request with a non-empty
`dew_temp` and no request without `relative_humidity` is accepted. -/
theorem validate_accepts_only_relative_humidity (m : kvp) (a : String)
    (ha : find m "air_temp" = some a) :
    ∃ r, validate m = some r ∧
      (r.valid = true →
        (∃ h, find m "relative_humidity" = some h ∧ empty h = false ∧
          numeric h = true ∧ 40 ≤ atof h) ∧
        (find m "dew_temp" = none ∨ ∃ d, find m "dew_temp" = some d ∧ empty d = true)) := by
  obtain ⟨r1, h1⟩ := validate_air_temp_present m initial_response a ha
  have hv : validate m = some (validate_dew_rel_hum m (validate_input_values m
      (validate_relative_humidity m (validate_dewpoint_uom m (validate_dewpoint m
        (validate_air_temp_uom m r1)))))) := by
    unfold validate
    rw [h1]
    rfl
  refine ⟨_, hv, fun hvalid => ?_⟩
  have hrh4 : (validate_dewpoint_uom m (validate_dewpoint m
      (validate_air_temp_uom m r1))).input.relative_humidity = 0 := by
    rw [validate_dewpoint_uom_rh, validate_dewpoint_rh, validate_air_temp_uom_rh,
      validate_air_temp_rh m _ _ h1]
    rfl
  generalize validate_dewpoint_uom m (validate_dewpoint m (validate_air_temp_uom m r1)) = r4
    at hvalid hrh4
  have k6 : (validate_input_values m (validate_relative_humidity m r4)).valid = true := by
    by_contra hc
    have := validate_dew_rel_hum_keeps_false m _ (Bool.eq_false_iff.mpr hc)
    rw [hvalid] at this
    exact absurd this (by decide)
  rw [validate_input_values_valid_eq] at k6
  simp only [Bool.and_eq_true, decide_eq_true_eq] at k6
  obtain ⟨⟨⟨⟨k5, -⟩, -⟩, -⟩, k40⟩ := k6
  have hrh : ∃ h, find m "relative_humidity" = some h ∧ empty h = false ∧
      numeric h = true ∧ 40 ≤ atof h := by
    cases hf : find m "relative_humidity" with
    | none =>
      rw [validate_relative_humidity_absent m r4 hf, hrh4] at k40
      norm_num at k40
    | some h =>
      cases he : empty h with
      | true =>
        rw [validate_relative_humidity_of_empty m r4 h hf he, hrh4] at k40
        norm_num at k40
      | false =>
        cases hn : numeric h with
        | false =>
          rw [validate_relative_humidity_not_numeric m r4 h hf he hn] at k5
          exact absurd k5 (by decide)
        | true =>
          rw [validate_relative_humidity_numeric m r4 h hf hn] at k40
          exact ⟨h, rfl, he, hn, k40⟩
  refine ⟨hrh, ?_⟩
  obtain ⟨h, hf, he, -, -⟩ := hrh
  cases hd : find m "dew_temp" with
  | none => exact Or.inl rfl
  | some d =>
    cases hde : empty d with
    | true => exact Or.inr ⟨d, rfl, hde⟩
    | false =>
      have := (validate_dew_rel_hum_both m (validate_input_values m
        (validate_relative_humidity m r4)) h d hf he hd hde).1
      rw [hvalid] at this
      exact absurd this (by decide)

theorem validate_accepts_only_relative_humidity_witness :
    find [("air_temp", "90"), ("air_uom", "F"), ("relative_humidity", "50")] "air_temp" =
      some "90" ∧
    ∃ r, validate [("air_temp", "90"), ("air_uom", "F"), ("relative_humidity", "50")] =
        some r ∧
      (r.valid = true →
        (∃ h, find [("air_temp", "90"), ("air_uom", "F"), ("relative_humidity", "50")]
            "relative_humidity" = some h ∧ empty h = false ∧
          numeric h = true ∧ 40 ≤ atof h) ∧
        (find [("air_temp", "90"), ("air_uom", "F"), ("relative_humidity", "50")]
            "dew_temp" = none ∨
          ∃ d, find [("air_temp", "90"), ("air_uom", "F"), ("relative_humidity", "50")]
            "dew_temp" = some d ∧ empty d = true)) :=
  ⟨rfl, validate_accepts_only_relative_humidity
    [("air_temp", "90"), ("air_uom", "F"), ("relative_humidity", "50")] "90" rfl⟩


/-! ## Lookups in changed parameter maps -/

theorem find_erase_same (m : kvp) (k : String) : find (kvp_erase m k) k = none := by
  apply find_none_of_no_key
  intro p hp
  unfold kvp_erase at hp
  simpa using (List.mem_filter.mp hp).2

theorem find_erase_other (m : kvp) (k k0 : String) (h : k0 ≠ k) :
    find (kvp_erase m k) k0 = find m k0 := by
  induction m with
  | nil => rfl
  | cons p rest ih =>
    obtain ⟨k', v'⟩ := p
    unfold kvp_erase find at ih ⊢
    by_cases hk : k' = k
    · subst hk
      have h1 : (k0 == k') = false := by simpa using h
      simp only [List.filter, bne_self_eq_false, List.lookup, h1]
      exact ih
    · have h1 : (k' != k) = true := by simpa using hk
      simp only [List.filter, h1, List.lookup]
      cases (k0 == k') with
      | true => rfl
      | false => exact ih

theorem find_set_same (m : kvp) (k v : String) : find (kvp_set m k v) k = some v := by
  unfold kvp_set find
  simp [List.lookup]

theorem find_set_other (m : kvp) (k v k0 : String) (h : k0 ≠ k) :
    find (kvp_set m k v) k0 = find m k0 := by
  have h1 : (k0 == k) = false := by simpa using h
  rw [← find_erase_other m k k0 h]
  unfold kvp_set find
  simp only [List.lookup, h1]

theorem validate_dew_rel_hum_empty_rh (m : kvp) (r : response_t) (h : String)
    (hh : find m "relative_humidity" = some h) (he : empty h = true) :
    validate_dew_rel_hum m r = r := by
  unfold validate_dew_rel_hum
  simp [hh, he]

theorem validate_dew_rel_hum_empty_dew (m : kvp) (r : response_t) (d : String)
    (hd : find m "dew_temp" = some d) (he : empty d = true) :
    validate_dew_rel_hum m r = r := by
  unfold validate_dew_rel_hum
  rw [hd]
  split
  · split <;> simp [he]
  · rfl


/-! ## Which messages a validator can write -/

theorem reject_message_eq (r : response_t) (k msg ex : String) (act : json) (M : String)
    (h : doc_get (reject r k msg ex act).doc "message" = some (json.string M)) :
    msg = M := by
  rw [reject_message] at h
  injection h with h
  injection h

theorem reject_range_message_eq (r : response_t) (msg M : String)
    (h : doc_get (reject_range r msg).doc "message" = some (json.string M)) : msg = M := by
  rw [reject_range_message] at h
  injection h with h
  injection h

theorem validate_air_temp_message (m : kvp) (r r' : response_t) (M : String)
    (hr : validate_air_temp m r = some r')
    (h1 : "Non-numeric value provided for air_temp." ≠ M)
    (h2 : "No value provided for air_temp input parameter." ≠ M)
    (h3 : "Required input parameter not specified." ≠ M)
    (h : doc_get r'.doc "message" = some (json.string M)) :
    doc_get r.doc "message" = some (json.string M) := by
  unfold validate_air_temp at hr
  split at hr
  · split at hr
    · split at hr <;> (injection hr with e; subst e)
      · exact h
      · exact absurd (reject_message_eq _ _ _ _ _ _ h) h1
    · split at hr <;> (injection hr with e; subst e)
      · exact absurd (reject_message_eq _ _ _ _ _ _ h) h2
      · exact absurd (reject_message_eq _ _ _ _ _ _ h) h3
  · exact absurd hr (by simp)

theorem validate_air_temp_uom_message (m : kvp) (r : response_t) (M : String)
    (h1 : "Unknown unit of measure provided." ≠ M)
    (h : doc_get (validate_air_temp_uom m r).doc "message" = some (json.string M)) :
    doc_get r.doc "message" = some (json.string M) := by
  unfold validate_air_temp_uom at h
  split at h
  · dsimp only at h
    split at h
    · exact h
    · split at h
      · exact h
      · exact absurd (reject_message_eq _ _ _ _ _ _ h) h1
  · exact h

theorem validate_dewpoint_message (m : kvp) (r : response_t) (M : String)
    (h1 : "Non-numeric value provided for dew_temp." ≠ M)
    (h : doc_get (validate_dewpoint m r).doc "message" = some (json.string M)) :
    doc_get r.doc "message" = some (json.string M) := by
  unfold validate_dewpoint at h
  split at h
  · split at h
    · rename_i hne
      split at h
      · exact h
      · split at h
        · rename_i he
          rw [he] at hne
          exact absurd hne (by decide)
        · exact absurd (reject_message_eq _ _ _ _ _ _ h) h1
    · exact h
  · exact h

theorem validate_dewpoint_uom_message (m : kvp) (r : response_t) (M : String)
    (h1 : "Unknown unit of measure provided." ≠ M)
    (h : doc_get (validate_dewpoint_uom m r).doc "message" = some (json.string M)) :
    doc_get r.doc "message" = some (json.string M) := by
  unfold validate_dewpoint_uom at h
  split at h
  · dsimp only at h
    split at h
    · exact h
    · split at h
      · exact h
      · exact absurd (reject_message_eq _ _ _ _ _ _ h) h1
  · exact h

theorem validate_relative_humidity_message (m : kvp) (r : response_t) (M : String)
    (h1 : "Non-numeric value provided for relative_humidity." ≠ M)
    (h : doc_get (validate_relative_humidity m r).doc "message" = some (json.string M)) :
    doc_get r.doc "message" = some (json.string M) := by
  unfold validate_relative_humidity at h
  split at h
  · split at h
    · rename_i hne
      split at h
      · exact h
      · split at h
        · rename_i he
          rw [he] at hne
          exact absurd hne (by decide)
        · exact absurd (reject_message_eq _ _ _ _ _ _ h) h1
    · exact h
  · exact h

theorem validate_input_values_message (m : kvp) (r : response_t) (M : String)
    (h1 : ("The valid input limits for air temperature is greater than " ++
      "80 deg Fahrenheit or 26.66667 deg Celsius.") ≠ M)
    (h2 : ("The valid input limits for dewpoint temperature are between " ++
      "-243C and the input air temperature.") ≠ M)
    (h3 : "The valid input limits for relative humidity is greater than 40." ≠ M)
    (h : doc_get (validate_input_values m r).doc "message" = some (json.string M)) :
    doc_get r.doc "message" = some (json.string M) := by
  unfold validate_input_values at h
  dsimp only at h
  split_ifs at h
  all_goals first
    | exact h
    | exact absurd (reject_range_message_eq _ _ _ h) h3
    | exact absurd (reject_range_message_eq _ _ _ h) h2
    | exact absurd (reject_range_message_eq _ _ _ h) h1

theorem validate_dew_rel_hum_message (m : kvp) (r : response_t) (M : String)
    (h1 : "Requires rh or dew_temp, not both." ≠ M)
    (h : doc_get (validate_dew_rel_hum m r).doc "message" = some (json.string M)) :
    doc_get r.doc "message" = some (json.string M) := by
  unfold validate_dew_rel_hum at h
  split at h
  · split at h
    · split at h
      · split at h
        · exact absurd (reject_message_eq _ _ _ _ _ _ h) h1
        · exact h
      · exact h
    · exact h
  · exact h

/-- A message that no live branch of any validator holds is not the message of a response
returned by `validate`. -/
theorem validate_message_ne (m : kvp) (r : response_t) (M : String)
    (hr : validate m = some r)
    (a1 : "Non-numeric value provided for air_temp." ≠ M)
    (a2 : "No value provided for air_temp input parameter." ≠ M)
    (a3 : "Required input parameter not specified." ≠ M)
    (u1 : "Unknown unit of measure provided." ≠ M)
    (d1 : "Non-numeric value provided for dew_temp." ≠ M)
    (h1 : "Non-numeric value provided for relative_humidity." ≠ M)
    (v1 : ("The valid input limits for air temperature is greater than " ++
      "80 deg Fahrenheit or 26.66667 deg Celsius.") ≠ M)
    (v2 : ("The valid input limits for dewpoint temperature are between " ++
      "-243C and the input air temperature.") ≠ M)
    (v3 : "The valid input limits for relative humidity is greater than 40." ≠ M)
    (b1 : "Requires rh or dew_temp, not both." ≠ M) :
    doc_get r.doc "message" ≠ some (json.string M) := by
  intro h
  unfold validate at hr
  cases e1 : validate_air_temp m initial_response with
  | none => rw [e1] at hr; exact absurd hr (by simp)
  | some r1 =>
    rw [e1, Option.map_some'] at hr
    injection hr with hr
    subst hr
    have k := validate_air_temp_message m _ _ M e1 a1 a2 a3
      (validate_air_temp_uom_message m _ M u1
        (validate_dewpoint_message m _ M d1
          (validate_dewpoint_uom_message m _ M u1
            (validate_relative_humidity_message m _ M h1
              (validate_input_values_message m _ M v1 v2 v3
                (validate_dew_rel_hum_message m _ M b1 h))))))
    have k0 : doc_get initial_response.doc "message" = none := by decide
    rw [k0] at k
    exact Option.noConfusion k


theorem find_set_erase (m : kvp) (k v k0 : String) (h : k0 ≠ k) :
    find (kvp_set m k v) k0 = find (kvp_erase m k) k0 := by
  rw [find_set_other m k v k0 h, find_erase_other m k k0 h]

theorem validate_congr (m m' : kvp)
    (h1 : ∀ r, validate_air_temp m r = validate_air_temp m' r)
    (h2 : ∀ r, validate_air_temp_uom m r = validate_air_temp_uom m' r)
    (h3 : ∀ r, validate_dewpoint m r = validate_dewpoint m' r)
    (h4 : ∀ r, validate_dewpoint_uom m r = validate_dewpoint_uom m' r)
    (h5 : ∀ r, validate_relative_humidity m r = validate_relative_humidity m' r)
    (h7 : ∀ r, validate_dew_rel_hum m r = validate_dew_rel_hum m' r) :
    validate m = validate m' := by
  unfold validate
  rw [h1]
  cases validate_air_temp m' initial_response with
  | none => rfl
  | some r1 =>
    simp only [Option.map_some']
    rw [h2, h3, h4, h5, h7, validate_input_values_congr m m']

/-- C20: a present-but-empty optional humidity input is treated like an absent one.  For
every parameter map `m`, `validate` gives the same result for `m` with `relative_humidity`
set to the empty string as for `m` without the key `relative_humidity`, and likewise for
`dew_temp`.  The messages "No value provided for relative_humidity input parameter." and
"No value provided for dew_temp input parameter." are never written: a response returned by
`validate` never carries either, and `validate_relative_humidity` and `validate_dewpoint`
hand on such a message only when the incoming document already held it. -/
theorem empty_value_like_absent (m : kvp) :
    validate (kvp_set m "relative_humidity" "") = validate (kvp_erase m "relative_humidity") ∧
    validate (kvp_set m "dew_temp" "") = validate (kvp_erase m "dew_temp") ∧
    (∀ r, validate m = some r →
      doc_get r.doc "message" ≠
        some (json.string "No value provided for relative_humidity input parameter.") ∧
      doc_get r.doc "message" ≠
        some (json.string "No value provided for dew_temp input parameter.")) ∧
    (∀ r, doc_get (validate_relative_humidity m r).doc "message" =
        some (json.string "No value provided for relative_humidity input parameter.") →
      doc_get r.doc "message" =
        some (json.string "No value provided for relative_humidity input parameter.")) ∧
    (∀ r, doc_get (validate_dewpoint m r).doc "message" =
        some (json.string "No value provided for dew_temp input parameter.") →
      doc_get r.doc "message" =
        some (json.string "No value provided for dew_temp input parameter.")) := by
  refine ⟨?_, ?_, fun r hr => ⟨?_, ?_⟩, fun r h => ?_, fun r h => ?_⟩
  · apply validate_congr
    · exact fun r => validate_air_temp_congr _ _ r
        (find_set_erase m "relative_humidity" "" "air_temp" (by decide))
    · exact fun r => validate_air_temp_uom_congr _ _ r
        (find_set_erase m "relative_humidity" "" "air_uom" (by decide))
    · exact fun r => validate_dewpoint_congr _ _ r
        (find_set_erase m "relative_humidity" "" "dew_temp" (by decide))
    · exact fun r => validate_dewpoint_uom_congr _ _ r
        (find_set_erase m "relative_humidity" "" "dew_uom" (by decide))
    · intro r
      rw [validate_relative_humidity_of_empty _ r "" (find_set_same m _ _) rfl,
        validate_relative_humidity_absent _ r (find_erase_same m _)]
    · intro r
      rw [validate_dew_rel_hum_empty_rh _ r "" (find_set_same m _ _) rfl,
        validate_dew_rel_hum_no_rh _ r (find_erase_same m _)]
  · apply validate_congr
    · exact fun r => validate_air_temp_congr _ _ r
        (find_set_erase m "dew_temp" "" "air_temp" (by decide))
    · exact fun r => validate_air_temp_uom_congr _ _ r
        (find_set_erase m "dew_temp" "" "air_uom" (by decide))
    · intro r
      rw [validate_dewpoint_of_empty _ r "" (find_set_same m _ _) rfl,
        validate_dewpoint_absent _ r (find_erase_same m _)]
    · exact fun r => validate_dewpoint_uom_congr _ _ r
        (find_set_erase m "dew_temp" "" "dew_uom" (by decide))
    · exact fun r => validate_relative_humidity_congr _ _ r
        (find_set_erase m "dew_temp" "" "relative_humidity" (by decide))
    · intro r
      rw [validate_dew_rel_hum_empty_dew _ r "" (find_set_same m _ _) rfl,
        validate_dew_rel_hum_no_dew _ r (find_erase_same m _)]
  · exact validate_message_ne m r
      "No value provided for relative_humidity input parameter." hr (by decide)
      (by decide) (by decide) (by decide) (by decide) (by decide) (by decide) (by decide)
      (by decide) (by decide)
  · exact validate_message_ne m r "No value provided for dew_temp input parameter." hr
      (by decide) (by decide) (by decide) (by decide) (by decide) (by decide) (by decide)
      (by decide) (by decide) (by decide)
  · exact validate_relative_humidity_message m r
      "No value provided for relative_humidity input parameter." (by decide) h
  · exact validate_dewpoint_message m r
      "No value provided for dew_temp input parameter." (by decide) h

theorem empty_value_like_absent_witness :
    validate (kvp_set [("air_temp", "90"), ("dew_temp", "60")] "relative_humidity" "") =
      validate (kvp_erase [("air_temp", "90"), ("dew_temp", "60")] "relative_humidity") ∧
    validate (kvp_set [("air_temp", "90"), ("dew_temp", "60")] "dew_temp" "") =
      validate (kvp_erase [("air_temp", "90"), ("dew_temp", "60")] "dew_temp") ∧
    kvp_set [("air_temp", "90"), ("dew_temp", "60")] "dew_temp" "" =
      [("dew_temp", ""), ("air_temp", "90")] ∧
    kvp_erase [("air_temp", "90"), ("dew_temp", "60")] "dew_temp" = [("air_temp", "90")] :=
  ⟨(empty_value_like_absent [("air_temp", "90"), ("dew_temp", "60")]).1,
    (empty_value_like_absent [("air_temp", "90"), ("dew_temp", "60")]).2.1,
    by decide, by decide⟩


/-! ## Scanning a decimal text -/

theorem isdigit_ne (c : Char) (h : isdigit c = true) :
    c ≠ '-' ∧ c ≠ '+' ∧ c ≠ '.' ∧ c ≠ 'e' ∧ c ≠ 'E' ∧ isspace c = false := by
  refine ⟨?_, ?_, ?_, ?_, ?_, ?_⟩
  · rintro rfl; revert h; decide
  · rintro rfl; revert h; decide
  · rintro rfl; revert h; decide
  · rintro rfl; revert h; decide
  · rintro rfl; revert h; decide
  · unfold isdigit at h
    unfold isspace
    simp only [Bool.and_eq_true, decide_eq_true_eq] at h
    simp only [Bool.or_eq_false_iff, beq_eq_false_iff_ne, Bool.and_eq_false_iff,
      decide_eq_false_iff_not]
    omega

theorem digits_append (ds tail : List Char) (acc cnt : Nat)
    (hds : ∀ c ∈ ds, isdigit c = true) (ht : ∀ c t, tail = c :: t → isdigit c = false) :
    digits acc cnt (ds ++ tail) =
      (ds.foldl (fun a c => a * 10 + (c.toNat - 48)) acc, cnt + ds.length, tail) := by
  induction ds generalizing acc cnt with
  | nil =>
    cases tail with
    | nil => rfl
    | cons c t => simp [digits, ht c t rfl]
  | cons d ds ih =>
    have hd : isdigit d = true := hds d (List.mem_cons_self _ _)
    have := ih (acc * 10 + (d.toNat - 48)) (cnt + 1)
      (fun c hc => hds c (List.mem_cons_of_mem _ hc))
    have e : cnt + 1 + ds.length = cnt + (ds.length + 1) := by omega
    simp only [List.cons_append, digits, hd, if_true, List.foldl_cons, List.length_cons]
    rw [← e]
    exact this

theorem skipws_append (ws s : List Char) (hws : ∀ c ∈ ws, isspace c = true)
    (hs : ∀ c t, s = c :: t → isspace c = false) : skipws (ws ++ s) = s := by
  induction ws with
  | nil =>
    cases s with
    | nil => rfl
    | cons c t => simp [skipws, hs c t rfl]
  | cons w ws ih =>
    have hw : isspace w = true := hws w (List.mem_cons_self _ _)
    simp only [List.cons_append, skipws, hw, if_true]
    exact ih (fun c hc => hws c (List.mem_cons_of_mem _ hc))


theorem scan_sign_decimal (neg : Bool) (body : List Char)
    (hb : ∀ c t, body = c :: t → c ≠ '-' ∧ c ≠ '+') :
    scan_sign ((if neg then ['-'] else []) ++ body) = (neg, body) := by
  cases neg with
  | true => simp [scan_sign]
  | false =>
    cases body with
    | nil => rfl
    | cons c t =>
      obtain ⟨h1, h2⟩ := hb c t rfl
      simp [scan_sign, h1, h2]

theorem scan_sign_exponent (eneg : Bool) (s : List Char) :
    scan_sign ((if eneg then '-' else '+') :: s) = (eneg, s) := by
  cases eneg <;> simp [scan_sign]

/-- The mantissa stage of `scan`: the point and the fraction digits after the integer
digits. -/
theorem scan_fraction (ip : Nat) (frac rest : List Char)
    (hf : ∀ c ∈ frac, isdigit c = true)
    (hr : ∀ c t, rest = c :: t → isdigit c = false ∧ c ≠ '.') :
    (match (if frac = [] then [] else '.' :: frac) ++ rest with
      | [] => (ip, 0, [])
      | c :: cs => if c = '.' then digits ip 0 cs else (ip, 0, c :: cs)) =
      (frac.foldl (fun a c => a * 10 + (c.toNat - 48)) ip, frac.length, rest) := by
  cases frac with
  | nil =>
    cases rest with
    | nil => rfl
    | cons c t => simp [(hr c t rfl).2]
  | cons f fs =>
    have := digits_append (f :: fs) rest ip 0 hf (fun c t e => (hr c t e).1)
    simp only [Nat.zero_add, List.cons_append, List.foldl_cons, List.length_cons] at this
    simp [this]


theorem scan_decimal_text (d : decimal_text) (tail : List Char) (hwf : d.wf)
    (ht : ∀ c t, tail = c :: t → stops_scan c) :
    scan (d.text ++ tail) =
      match d.exponent with
      | none => ⟨d.neg, digits_value (d.int_part ++ d.frac_part),
          d.int_part.length + d.frac_part.length, d.frac_part.length, false, false, 0, 0,
          tail⟩
      | some (eneg, eds) => ⟨d.neg, digits_value (d.int_part ++ d.frac_part),
          d.int_part.length + d.frac_part.length, d.frac_part.length, true, eneg,
          digits_value eds, eds.length, tail⟩ := by
  obtain ⟨neg, int, frac, ex⟩ := d
  obtain ⟨hne, hint, hfrac, hexp⟩ := hwf
  dsimp only at hne hint hfrac hexp
  -- the characters after the mantissa
  have hA : ∀ c t, decimal_text.exponent_text ⟨neg, int, frac, ex⟩ ++ tail = c :: t →
      isdigit c = false ∧ c ≠ '.' := by
    intro c t e
    cases ex with
    | none =>
      have := ht c t (by simpa [decimal_text.exponent_text] using e)
      exact ⟨this.1, this.2.1⟩
    | some p =>
      obtain ⟨eneg, eds⟩ := p
      simp only [decimal_text.exponent_text, List.cons_append, List.cons.injEq] at e
      rw [← e.1]
      exact ⟨by decide, by decide⟩
  have hB : ∀ c t, (if frac = [] then [] else '.' :: frac) ++
      (decimal_text.exponent_text ⟨neg, int, frac, ex⟩ ++ tail) = c :: t →
      isdigit c = false := by
    intro c t e
    by_cases hf : frac = []
    · simp only [hf, if_true, List.nil_append] at e
      exact (hA c t e).1
    · simp only [hf, if_false, List.cons_append, List.cons.injEq] at e
      rw [← e.1]
      decide
  have hC : ∀ c t, int ++ ((if frac = [] then [] else '.' :: frac) ++
      (decimal_text.exponent_text ⟨neg, int, frac, ex⟩ ++ tail)) = c :: t →
      c ≠ '-' ∧ c ≠ '+' := by
    intro c t e
    cases int with
    | nil => exact absurd rfl hne
    | cons i is =>
      simp only [List.cons_append, List.cons.injEq] at e
      rw [← e.1]
      have := isdigit_ne i (hint i (List.mem_cons_self _ _))
      exact ⟨this.1, this.2.1⟩
  have h1 := scan_sign_decimal neg _ hC
  have h2 := digits_append int _ 0 0 hint hB
  have h3 := scan_fraction (int.foldl (fun a c => a * 10 + (c.toNat - 48)) 0) frac _ hfrac hA
  have hlen : 0 < int.length := List.length_pos.mpr hne
  unfold scan decimal_text.text
  simp only [List.append_assoc]
  rw [h1]
  dsimp only
  rw [h2]
  dsimp only
  erw [h3]
  dsimp only
  have hm : List.foldl (fun a c => a * 10 + (c.toNat - 48))
      (List.foldl (fun a c => a * 10 + (c.toNat - 48)) 0 int) frac =
      digits_value (int ++ frac) := by
    unfold digits_value
    rw [List.foldl_append]
  rw [hm]
  cases ex with
  | none =>
    cases tail with
    | nil => simp [decimal_text.exponent_text]
    | cons c t =>
      obtain ⟨-, -, he1, he2⟩ := ht c t rfl
      simp [decimal_text.exponent_text, he1, he2]
  | some p =>
    obtain ⟨eneg, eds⟩ := p
    obtain ⟨hene, heds⟩ := hexp (eneg, eds) rfl
    have h5 := digits_append eds tail 0 0 heds (fun c t e => (ht c t e).1)
    have hpos : 0 < int.length + frac.length := by omega
    simp only [decimal_text.exponent_text, List.cons_append, true_or, true_and,
      Nat.zero_add, hpos, if_true, scan_sign_exponent, h5]
    rfl


theorem isspace_stops (c : Char) (h : isspace c = true) : stops_scan c := by
  refine ⟨?_, ?_, ?_, ?_⟩
  · unfold isspace at h
    unfold isdigit
    simp only [Bool.or_eq_true, beq_iff_eq, Bool.and_eq_true, decide_eq_true_eq] at h
    simp only [Bool.and_eq_false_iff, decide_eq_false_iff_not]
    omega
  · rintro rfl; revert h; decide
  · rintro rfl; revert h; decide
  · rintro rfl; revert h; decide

theorem decimal_text_head (d : decimal_text) (tail : List Char) (hwf : d.wf) :
    ∃ c t, d.text ++ tail = c :: t ∧ isspace c = false := by
  obtain ⟨neg, int, frac, ex⟩ := d
  obtain ⟨hne, hint, -, -⟩ := hwf
  dsimp only at hne hint
  unfold decimal_text.text
  cases neg with
  | true => exact ⟨'-', _, rfl, by decide⟩
  | false =>
    cases int with
    | nil => exact absurd rfl hne
    | cons i is =>
      exact ⟨i, _, rfl, (isdigit_ne i (hint i (List.mem_cons_self _ _))).2.2.2.2.2⟩

theorem scan_decimal_value (d : decimal_text) (tail : List Char) (hwf : d.wf)
    (ht : ∀ c t, tail = c :: t → stops_scan c) :
    (scan (d.text ++ tail)).value = d.value ∧ (scan (d.text ++ tail)).rest = tail ∧
    (scan (d.text ++ tail)).ndigits ≠ 0 ∧
    ¬ ((scan (d.text ++ tail)).sci = true ∧ (scan (d.text ++ tail)).edigits = 0) ∧
    ((scan (d.text ++ tail)).edigits = 0 → (scan (d.text ++ tail)).mantissa = d.value) := by
  have hpos : 0 < d.int_part.length := List.length_pos.mpr hwf.1
  rw [scan_decimal_text d tail hwf ht]
  cases he : d.exponent with
  | none =>
    refine ⟨?_, rfl, ?_, ?_, ?_⟩
    · simp [scanned.value, scanned.mantissa, decimal_text.value, he]
    · dsimp only; omega
    · simp
    · intro _
      simp [scanned.mantissa, decimal_text.value, he]
  | some p =>
    obtain ⟨eneg, eds⟩ := p
    have hlen : eds.length ≠ 0 := by
      have := (hwf.2.2.2 (eneg, eds) he).1
      exact fun h => this (List.length_eq_zero.mp h)
    refine ⟨?_, rfl, ?_, ?_, ?_⟩
    · simp [scanned.value, scanned.mantissa, decimal_text.value, he]
    · dsimp only; omega
    · dsimp only
      exact fun h => hlen h.2
    · intro h
      exact absurd h hlen

theorem extract_decimal_text (d : decimal_text) (ws tail : List Char) (hwf : d.wf)
    (hws : ∀ c ∈ ws, isspace c = true) (hfin : overflows d.value = false)
    (ht : ∀ c t, tail = c :: t → stops_scan c) :
    extract (ws ++ (d.text ++ tail)) = some (d.value, tail) := by
  obtain ⟨c, t, hct, hc⟩ := decimal_text_head d tail hwf
  obtain ⟨hv, hr, hn, hs, -⟩ := scan_decimal_value d tail hwf ht
  have hsk : skipws (ws ++ (d.text ++ tail)) = c :: t := by
    rw [← hct]
    apply skipws_append ws _ hws
    intro c' t' e
    rw [hct] at e
    injection e with e1 e2
    rw [← e1]
    exact hc
  unfold extract
  rw [hsk]
  dsimp only
  rw [← hct, hv, hr]
  simp only [hn, hs, hfin, if_false, Bool.false_eq_true]


theorem numeric_no_number (s : String)
    (h : ∀ c t, skipws s.data = c :: t →
      isdigit c = false ∧ c ≠ '+' ∧ c ≠ '-' ∧ c ≠ '.') : numeric s = false := by
  unfold numeric extract
  cases hs : skipws s.data with
  | nil => rfl
  | cons c t =>
    obtain ⟨h1, h2, h3, h4⟩ := h c t hs
    simp [scan, scan_sign, digits, h1, h2, h3, h4]

/-- C12 as stated fails: "12" is numeric, and "12" followed only by white space is not. -/
theorem numeric_trailing_space :
    numeric "12" = true ∧ ¬ numeric "12 " = true := by
  decide!

/-- C12, amended: `numeric` is true for every string that is the decimal formatting of a
finite number (optional `-`, integer digits, optional point and fraction digits, optional
exponent), also when white space precedes it, and `atof` then yields the number the text
denotes.  It is false for such a text followed by any character at which the number cannot
go on (anything but a digit, a point or an exponent letter), white space included: a
trailing space makes the string non-numeric.  It is false for the empty string, for "abc",
"12a" and "12abc", and for every string that, after leading white space, is empty or starts
with a character that is neither a digit, a sign nor a point. -/
theorem numeric_decimal_text (d : decimal_text) (ws : List Char) (hwf : d.wf)
    (hws : ∀ c ∈ ws, isspace c = true) (hfin : overflows d.value = false) :
    numeric ⟨ws ++ d.text⟩ = true ∧
    atof ⟨ws ++ d.text⟩ = d.value ∧
    (∀ c t, stops_scan c → numeric ⟨ws ++ (d.text ++ c :: t)⟩ = false) ∧
    (∀ c t, isspace c = true → numeric ⟨ws ++ (d.text ++ c :: t)⟩ = false) ∧
    numeric "" = false ∧ numeric "abc" = false ∧ numeric "12a" = false ∧
    numeric "12abc" = false ∧
    (∀ s : String, (∀ c t, skipws s.data = c :: t →
      isdigit c = false ∧ c ≠ '+' ∧ c ≠ '-' ∧ c ≠ '.') → numeric s = false) := by
  have hstop : ∀ c t, stops_scan c → numeric ⟨ws ++ (d.text ++ c :: t)⟩ = false := by
    intro c t hc
    have := extract_decimal_text d ws (c :: t) hwf hws hfin (by
      intro c' t' e
      injection e with e1 e2
      rw [← e1]
      exact hc)
    unfold numeric
    simp [this]
  refine ⟨?_, ?_, hstop, fun c t hc => hstop c t (isspace_stops c hc), by decide!,
    by decide!, by decide!, by decide!, numeric_no_number⟩
  · have := extract_decimal_text d ws [] hwf hws hfin (by intro c t e; cases e)
    rw [List.append_nil] at this
    unfold numeric
    simp [this]
  · obtain ⟨c, t, hct, hc⟩ := decimal_text_head d [] hwf
    obtain ⟨hv, -, hn, -, hm⟩ := scan_decimal_value d [] hwf (by intro c t e; cases e)
    rw [List.append_nil] at hct hv hn hm
    have hsk : skipws (ws ++ d.text) = d.text := by
      apply skipws_append ws _ hws
      intro c' t' e
      rw [hct] at e
      injection e with e1 e2
      rw [← e1]
      exact hc
    unfold atof
    simp only [hsk, hn, if_false]
    split
    · rename_i h0
      exact hm h0
    · exact hv

theorem numeric_decimal_text_witness :
    numeric "-3.5" = true ∧ atof "-3.5" = -7 / 2 ∧ numeric "-3.5 " = false :=
  have h := numeric_decimal_text ⟨true, ['3'], ['5'], none⟩ []
    ⟨by decide, by decide, by decide, by decide⟩ (by decide) (by decide!)
  ⟨h.1, h.2.1.trans (by decide!), h.2.2.2.1 ' ' [] (by decide)⟩


end HeatIndex
